import Mathlib

/-!
Verification of the Quantioa real-time decision-and-execution pipeline.

Shallow embedding of the core components of the repository:
order-flow imbalance (`inc1_microstructure.py`), Kelly position sizing
(`inc4_kelly.py`), TWAP/VWAP child-order scheduling (`inc8_execution.py`),
ATR trailing stops (`risk/position_risk.py`), the daily loss latch
(`risk/daily_limits.py`), the signal generator
(`engine/signal_generator.py`), the trade-confirmation gate
(`engine/trade_confirmation.py`) and the trading loop's signal pipeline
(`engine/trading_loop.py`).

Python floats are embedded as rationals (`ℚ`), Python ints as `ℕ`/`ℤ`.
Python's `round` (banker's rounding) is modelled exactly by `pyRound` /
`roundTo` below.  Non-deterministic fields of the source (uuid-based order
ids, wall-clock `time.time()`) are either omitted or passed as an explicit
`now` parameter; they play no role in any verified property.
-/

/-- Python's built-in `round` on a rational: round half to even
(banker's rounding), as CPython does for `round(x)`. -/
def pyRound (q : ℚ) : ℤ :=
  if q - ⌊q⌋ < 1/2 then ⌊q⌋
  else if 1/2 < q - ⌊q⌋ then ⌊q⌋ + 1
  else if 2 ∣ ⌊q⌋ then ⌊q⌋ else ⌊q⌋ + 1

/-- Python's `round(q, n)`: round to `n` decimal places, half to even. -/
def roundTo (q : ℚ) (n : ℕ) : ℚ :=
  (pyRound (q * 10 ^ n) : ℚ) / 10 ^ n

theorem pyRound_nonneg {q : ℚ} (h : 0 ≤ q) : 0 ≤ pyRound q := by
  have hf : (0 : ℤ) ≤ ⌊q⌋ := Int.floor_nonneg.mpr h
  unfold pyRound
  split_ifs <;> omega

theorem pyRound_le {q : ℚ} {B : ℤ} (h : q ≤ (B : ℚ)) : pyRound q ≤ B := by
  have hfB : ⌊q⌋ ≤ B := by
    have h2 := Int.floor_le_floor (α := ℚ) h
    simpa using h2
  have hfq : (⌊q⌋ : ℚ) ≤ q := Int.floor_le q
  unfold pyRound
  split_ifs with h1 h2 h3
  · exact hfB
  · push_neg at h1
    have hlt : (⌊q⌋ : ℚ) < (B : ℚ) := by linarith
    have : ⌊q⌋ < B := by exact_mod_cast hlt
    omega
  · exact hfB
  · push_neg at h1
    have hlt : (⌊q⌋ : ℚ) < (B : ℚ) := by linarith
    have : ⌊q⌋ < B := by exact_mod_cast hlt
    omega

theorem roundTo_nonneg {q : ℚ} (n : ℕ) (h : 0 ≤ q) : 0 ≤ roundTo q n := by
  unfold roundTo
  have h1 : (0 : ℤ) ≤ pyRound (q * 10 ^ n) :=
    pyRound_nonneg (by positivity)
  have h2 : (0 : ℚ) ≤ (pyRound (q * 10 ^ n) : ℚ) := by exact_mod_cast h1
  positivity

theorem roundTo_le_one {q : ℚ} (n : ℕ) (h : q ≤ 1) : roundTo q n ≤ 1 := by
  unfold roundTo
  have h1 : pyRound (q * 10 ^ n) ≤ (10 ^ n : ℤ) := by
    apply pyRound_le
    push_cast
    have hp : (0 : ℚ) < 10 ^ n := by positivity
    nlinarith
  rw [div_le_one (by positivity)]
  exact_mod_cast h1

/-- Sum with pointwise addition splits (helper for the TWAP sum proof). -/
theorem list_sum_map_add {α : Type} (l : List α) (f g : α → ℤ) :
    (l.map fun i => f i + g i).sum = (l.map f).sum + (l.map g).sum := by
  induction l with
  | nil => simp
  | cons a t ih => simp [ih]; ring

/-- Casting a list sum of naturals to integers (helper). -/
theorem list_sum_map_natCast {α : Type} (l : List α) (f : α → ℕ) :
    (l.map fun i => ((f i : ℕ) : ℤ)).sum = ((l.map f).sum : ℤ) := by
  induction l with
  | nil => simp
  | cons a t ih => simp [ih]

/-- Number of `i < n` with `i < r` (helper for the TWAP remainder count). -/
theorem sum_range_ite_lt (n r : ℕ) :
    ((List.range n).map fun i => if i < r then (1 : ℕ) else 0).sum = min r n := by
  induction n with
  | zero => simp
  | succ m ih =>
      rw [List.range_succ, List.map_append, List.sum_append, ih]
      by_cases h : m < r
      · simp [h]; omega
      · simp [h]; omega

-- ── Enums (models/enums.py) ───────────────────────────────────────────────

inductive TradeSignal where
  | BUY | SELL | HOLD
deriving DecidableEq, Repr

inductive TradeSide where
  | LONG | SHORT
deriving DecidableEq, Repr

inductive VolatilityRegime where
  | EXTREME_LOW_VOL | LOW_VOL | NORMAL | HIGH_VOL | EXTREME_VOL
deriving DecidableEq, Repr

inductive ExecutionStrategy where
  | MARKET | LIMIT | TWAP | VWAP
deriving DecidableEq, Repr

-- ── Increment 1: Order Flow Imbalance (inc1_microstructure.py) ────────────

/-- One level of the book (`models/types.py: OrderBookLevel`). -/
structure OrderBookLevel where
  price : ℚ
  quantity : ℤ
  orders : ℤ := 0
deriving DecidableEq, Repr

/-- `models/types.py: OrderBookSnapshot`. -/
structure OrderBookSnapshot where
  symbol : String
  bids : List OrderBookLevel
  asks : List OrderBookLevel
  timestamp : ℚ := 0
deriving DecidableEq, Repr

/-- `inc1_microstructure.py: OFIResult`. -/
structure OFIResult where
  ofi : ℚ
  signal : TradeSignal
  buyVolume : ℚ
  sellVolume : ℚ
  imbalanceStrength : ℚ
deriving DecidableEq, Repr

/-- Total bid-side quantity of a snapshot (the analyzer's `buy_volume`). -/
def OrderBookSnapshot.bidVolume (s : OrderBookSnapshot) : ℤ :=
  (s.bids.map (·.quantity)).sum

/-- Total ask-side quantity of a snapshot (the analyzer's `sell_volume`). -/
def OrderBookSnapshot.askVolume (s : OrderBookSnapshot) : ℤ :=
  (s.asks.map (·.quantity)).sum

/-- `OrderFlowAnalyzer.analyze` (the rolling `_history` deque only feeds the
`average_ofi`/`ofi_trend` accessors, which no claim touches, so the analyze
step is modelled as the pure book → result function). Thresholds are the
constructor arguments `accumulation_threshold`/`distribution_threshold`. -/
def OrderFlowAnalyzer.analyze (accThreshold distThreshold : ℚ)
    (snapshot : OrderBookSnapshot) : OFIResult :=
  let buyVolume : ℤ := snapshot.bidVolume
  let sellVolume : ℤ := snapshot.askVolume
  let total : ℤ := buyVolume + sellVolume
  let ofi : ℚ := if total = 0 then 0 else ((buyVolume : ℚ) - sellVolume) / total
  let signal : TradeSignal :=
    if accThreshold < ofi then .BUY
    else if ofi < distThreshold then .SELL
    else .HOLD
  { ofi := ofi
    signal := signal
    buyVolume := (buyVolume : ℚ)
    sellVolume := (sellVolume : ℚ)
    imbalanceStrength := |ofi| }

-- ── Increment 4: Kelly Criterion Sizing (inc4_kelly.py) ───────────────────

/-- `models/types.py: TradeResult` (the fields Kelly reads). -/
structure TradeResult where
  symbol : String
  side : TradeSide
  quantity : ℤ
  entryPrice : ℚ
  exitPrice : ℚ
deriving DecidableEq, Repr

/-- `TradeResult.pnl` property. -/
def TradeResult.pnl (t : TradeResult) : ℚ :=
  (if t.side = TradeSide.LONG then 1 else -1) * (t.exitPrice - t.entryPrice) * t.quantity

/-- `TradeResult.is_winner` property. -/
def TradeResult.isWinner (t : TradeResult) : Bool :=
  decide (0 < t.pnl)

/-- Python `int(q)`: truncation toward zero. -/
def pyTrunc (q : ℚ) : ℤ :=
  if 0 ≤ q then ⌊q⌋ else -⌊-q⌋

/-- Constructor arguments of `KellyCriterionSizer` (after the `or`-defaults
with `settings.default_kelly_fraction = 0.25` and
`settings.min_trade_history_for_kelly = 20` have been applied). -/
structure KellyConfig where
  kellyFraction : ℚ := 1/4
  minTrades : ℕ := 20
  maxPositionPct : ℚ := 1/10
deriving DecidableEq, Repr

/-- `inc4_kelly.py: KellyResult`. -/
structure KellyResult where
  fullKelly : ℚ
  fractionalKelly : ℚ
  positionSizeRupees : ℚ
  positionSizeShares : ℤ
  winRate : ℚ
  avgWin : ℚ
  avgLoss : ℚ
  oddsRatio : ℚ
  tradesAnalyzed : ℕ
  isActive : Bool
deriving DecidableEq, Repr

/-- `risk_per_share = abs(entry - stop) if stop_loss_price else entry * 0.02`
(`stop_loss_price` is truthy iff nonzero). -/
def kellyRiskPerShare (entryPrice stopLossPrice : ℚ) : ℚ :=
  if stopLossPrice ≠ 0 then |entryPrice - stopLossPrice| else entryPrice * (2/100)

/-- `shares = int(risk / rps) if rps > 0 else 0`, then `max(shares, 0)`. -/
def kellyShares (riskAmount riskPerShare : ℚ) : ℤ :=
  max (if 0 < riskPerShare then pyTrunc (riskAmount / riskPerShare) else 0) 0

/-- `KellyCriterionSizer.calculate`.  The bounded `deque` window is the
`trades` list (already truncated to the lookback by the caller). -/
def KellyCriterionSizer.calculate (cfg : KellyConfig) (trades : List TradeResult)
    (capital entryPrice stopLossPrice : ℚ) : KellyResult :=
  let tradesCount := trades.length
  if tradesCount < cfg.minTrades then
    let defaultRisk := capital * (1/100)
    let rps := kellyRiskPerShare entryPrice stopLossPrice
    { fullKelly := 0
      fractionalKelly := 1/100
      positionSizeRupees := defaultRisk
      positionSizeShares := kellyShares defaultRisk rps
      winRate := 1/2
      avgWin := 0
      avgLoss := 0
      oddsRatio := 1
      tradesAnalyzed := tradesCount
      isActive := false }
  else
    let winners := trades.filter (·.isWinner)
    let losers := trades.filter (fun t => ¬ t.isWinner)
    let winRate : ℚ := (winners.length : ℚ) / tradesCount
    let avgWin : ℚ :=
      if winners ≠ [] then (winners.map (·.pnl)).sum / winners.length else 0
    let avgLoss : ℚ :=
      if losers ≠ [] then |(losers.map (·.pnl)).sum / losers.length| else 1
    let odds : ℚ := if 0 < avgLoss then avgWin / avgLoss else 1
    let q : ℚ := 1 - winRate
    let fullKelly₀ : ℚ := if 0 < odds then (odds * winRate - q) / odds else 0
    let fullKelly : ℚ := max fullKelly₀ 0
    let fractional : ℚ := min (fullKelly * cfg.kellyFraction) cfg.maxPositionPct
    let riskAmount := capital * fractional
    let rps := kellyRiskPerShare entryPrice stopLossPrice
    { fullKelly := fullKelly
      fractionalKelly := fractional
      positionSizeRupees := riskAmount
      positionSizeShares := kellyShares riskAmount rps
      winRate := winRate
      avgWin := avgWin
      avgLoss := avgLoss
      oddsRatio := odds
      tradesAnalyzed := tradesCount
      isActive := true }

-- ── Increment 8: Execution (inc8_execution.py) ────────────────────────────

/-- `models/types.py: ChildOrder` (fill fields omitted: they stay at their
defaults until `record_fill`, which no claim touches; the uuid order id is
omitted as non-deterministic). -/
structure ChildOrder where
  sequence : ℕ
  quantity : ℤ
  targetPrice : ℚ
  scheduledTime : ℚ
deriving DecidableEq, Repr

/-- `models/types.py: ParentOrder` (aggregate fill fields omitted, uuid id
omitted). -/
structure ParentOrder where
  symbol : String
  side : TradeSide
  totalQuantity : ℤ
  strategy : ExecutionStrategy
  children : List ChildOrder
  createdAt : ℚ
deriving DecidableEq, Repr

/-- `TWAPStrategy._auto_slices`. -/
def TWAPStrategy.autoSlices (qty : ℕ) : ℕ :=
  if qty ≤ 50 then 2 else if qty ≤ 200 then 5 else if qty ≤ 1000 then 10 else 15

/-- Effective slice count: `self._num_slices or self._auto_slices(qty)`
(Python `or`: `num_slices = 0` or `None` both fall back to the heuristic),
then clamped to `[2, 20]` and to at most `total_quantity`. -/
def TWAPStrategy.numSlicesFor (numSlices : Option ℕ) (totalQuantity : ℕ) : ℕ :=
  let n₀ := match numSlices with
    | some k => if k = 0 then TWAPStrategy.autoSlices totalQuantity else k
    | none => TWAPStrategy.autoSlices totalQuantity
  min (max 2 (min n₀ 20)) totalQuantity

/-- `TWAPStrategy.generate_schedule` (`now = time.time()` is a parameter). -/
def TWAPStrategy.generateSchedule (numSlices : Option ℕ) (symbol : String)
    (side : TradeSide) (totalQuantity : ℕ) (durationSeconds : ℚ)
    (currentPrice now : ℚ) : ParentOrder :=
  let n := TWAPStrategy.numSlicesFor numSlices totalQuantity
  let baseQty := totalQuantity / n
  let remainder := totalQuantity % n
  let interval := durationSeconds / n
  let children := (List.range n).map fun i =>
    ({ sequence := i + 1
       quantity := ((baseQty + if i < remainder then 1 else 0 : ℕ) : ℤ)
       targetPrice := currentPrice
       scheduledTime := now + interval * i } : ChildOrder)
  { symbol := symbol
    side := side
    totalQuantity := (totalQuantity : ℤ)
    strategy := ExecutionStrategy.TWAP
    children := children
    createdAt := now }

/-- `VWAPStrategy._auto_slices`. -/
def VWAPStrategy.autoSlices (qty : ℕ) : ℕ :=
  if qty ≤ 100 then 3 else if qty ≤ 500 then 8 else if qty ≤ 2000 then 15 else 20

/-- Slice count for VWAP: `or`-fallback, clamp `[3, 30]`, cap at quantity. -/
def VWAPStrategy.numSlicesFor (numSlices : Option ℕ) (totalQuantity : ℕ) : ℕ :=
  let n₀ := match numSlices with
    | some k => if k = 0 then VWAPStrategy.autoSlices totalQuantity else k
    | none => VWAPStrategy.autoSlices totalQuantity
  min (max 3 (min n₀ 30)) totalQuantity

/-- The default U-shaped raw profile `w_i = 1 + 1.5*(2*x-1)^2` with
`x = i / max(n-1, 1)` (the un-normalised `raw` list in `_get_weights`). -/
def VWAPStrategy.uShapeRaw (n : ℕ) : List ℚ :=
  (List.range n).map fun i =>
    1 + (3/2) * (2 * ((i : ℚ) / (max (n - 1) 1 : ℕ)) - 1) ^ 2

/-- The normalised default U-shaped weights. -/
def VWAPStrategy.uShapeWeights (n : ℕ) : List ℚ :=
  (VWAPStrategy.uShapeRaw n).map (· / (VWAPStrategy.uShapeRaw n).sum)

/-- `VWAPStrategy._get_weights`: a supplied profile of matching length is
normalised (uniform if it sums to ≤ 0); otherwise the default U-shaped
curve.  A profile is "supplied" iff it is truthy: not `None`, not empty. -/
def VWAPStrategy.getWeights (profile : Option (List ℚ)) (n : ℕ) : List ℚ :=
  match profile with
  | some p =>
      if p ≠ [] ∧ p.length = n then
        if 0 < p.sum then p.map (· / p.sum)
        else List.replicate n (1 / n)
      else VWAPStrategy.uShapeWeights n
  | none => VWAPStrategy.uShapeWeights n

/-- Quantity of non-last VWAP slice `i`: `max(1, round(total * weights[i]))`. -/
def VWAPStrategy.sliceQty (totalQuantity : ℕ) (weights : List ℚ) (i : ℕ) : ℤ :=
  max 1 (pyRound ((totalQuantity : ℚ) * weights.getD i 0))

/-- `allocated` after the first `m` (non-last) slices. -/
def VWAPStrategy.allocated (totalQuantity : ℕ) (weights : List ℚ) (m : ℕ) : ℤ :=
  ((List.range m).map (VWAPStrategy.sliceQty totalQuantity weights)).sum

/-- `VWAPStrategy.generate_schedule`: the last slice takes
`total_quantity - allocated`; zero-or-negative quantity children are then
filtered out (`[c for c in children if c.quantity > 0]`). -/
def VWAPStrategy.generateSchedule (profile : Option (List ℚ))
    (numSlices : Option ℕ) (symbol : String) (side : TradeSide)
    (totalQuantity : ℕ) (durationSeconds : ℚ) (currentPrice now : ℚ) :
    ParentOrder :=
  let n := VWAPStrategy.numSlicesFor numSlices totalQuantity
  let weights := VWAPStrategy.getWeights profile n
  let interval := durationSeconds / n
  let rawChildren : List ChildOrder :=
    if n = 0 then []
    else
      ((List.range (n - 1)).map fun i =>
        ({ sequence := i + 1
           quantity := VWAPStrategy.sliceQty totalQuantity weights i
           targetPrice := currentPrice
           scheduledTime := now + interval * i } : ChildOrder)) ++
      [{ sequence := n
         quantity := (totalQuantity : ℤ) - VWAPStrategy.allocated totalQuantity weights (n - 1)
         targetPrice := currentPrice
         scheduledTime := now + interval * (n - 1) }]
  let children := rawChildren.filter fun c => decide (0 < c.quantity)
  { symbol := symbol
    side := side
    totalQuantity := (totalQuantity : ℤ)
    strategy := ExecutionStrategy.VWAP
    children := children
    createdAt := now }

-- ── Risk: ATR trailing stops (risk/position_risk.py) ──────────────────────

/-- `position_risk.py: StopLevel` (`side` is the raw string, as in source). -/
structure StopLevel where
  symbol : String
  side : String
  entryPrice : ℚ
  stopPrice : ℚ
  atrMultiplier : ℚ
  highestSinceEntry : ℚ
  lowestSinceEntry : ℚ
deriving DecidableEq, Repr

/-- `PositionRiskManager` state: the `_stops` dict keyed by symbol plus the
manager-level ATR multiplier. -/
structure PositionRiskManager where
  atrMultiplier : ℚ
  stops : String → Option StopLevel

/-- An empty manager (`PositionRiskManager(atr_multiplier)`). -/
def PositionRiskManager.init (atrMultiplier : ℚ) : PositionRiskManager :=
  ⟨atrMultiplier, fun _ => none⟩

/-- `PositionRiskManager.register_position`: sets the initial stop at
`entry ∓ atr * multiplier` (rounded to 2 decimals) and stores the level. -/
def PositionRiskManager.registerPosition (m : PositionRiskManager)
    (symbol side : String) (entryPrice atr : ℚ) :
    StopLevel × PositionRiskManager :=
  let stop := if side = "LONG" then entryPrice - atr * m.atrMultiplier
              else entryPrice + atr * m.atrMultiplier
  let sl : StopLevel :=
    { symbol := symbol
      side := side
      entryPrice := entryPrice
      stopPrice := roundTo stop 2
      atrMultiplier := m.atrMultiplier
      highestSinceEntry := entryPrice
      lowestSinceEntry := entryPrice }
  (sl, ⟨m.atrMultiplier, fun s => if s = symbol then some sl else m.stops s⟩)

/-- `PositionRiskManager.update`: trails the stop favourably and returns
whether the stop is hit (`True`) together with the updated state. -/
def PositionRiskManager.update (m : PositionRiskManager) (symbol : String)
    (currentPrice atr : ℚ) : Bool × PositionRiskManager :=
  match m.stops symbol with
  | none => (false, m)
  | some sl =>
    if sl.side = "LONG" then
      let highest := max sl.highestSinceEntry currentPrice
      let newStop := highest - atr * sl.atrMultiplier
      let stopPrice := max sl.stopPrice (roundTo newStop 2)  -- only trail up
      let sl' := { sl with highestSinceEntry := highest, stopPrice := stopPrice }
      (decide (currentPrice ≤ stopPrice),
       ⟨m.atrMultiplier, fun s => if s = symbol then some sl' else m.stops s⟩)
    else
      let lowest := min sl.lowestSinceEntry currentPrice
      let newStop := lowest + atr * sl.atrMultiplier
      let stopPrice := min sl.stopPrice (roundTo newStop 2)  -- only trail down
      let sl' := { sl with lowestSinceEntry := lowest, stopPrice := stopPrice }
      (decide (stopPrice ≤ currentPrice),
       ⟨m.atrMultiplier, fun s => if s = symbol then some sl' else m.stops s⟩)

/-- A sequence of `update(symbol, price, atr)` calls, state-threaded. -/
def PositionRiskManager.applyUpdates (m : PositionRiskManager)
    (calls : List (String × ℚ × ℚ)) : PositionRiskManager :=
  calls.foldl (fun acc c => (acc.update c.1 c.2.1 c.2.2).2) m

-- ── Risk: daily loss latch (risk/daily_limits.py) ─────────────────────────

/-- `DailyLimitTracker` state (`_max_loss_amount` is precomputed in
`__init__` as `capital * (max_loss_pct / 100)`). -/
structure DailyLimitTracker where
  maxLossPct : ℚ
  capital : ℚ
  maxLossAmount : ℚ
  dailyPnl : ℚ
  halted : Bool
deriving DecidableEq, Repr

/-- `DailyLimitTracker(max_loss_pct, capital)`. -/
def DailyLimitTracker.init (maxLossPct capital : ℚ) : DailyLimitTracker :=
  { maxLossPct := maxLossPct
    capital := capital
    maxLossAmount := capital * (maxLossPct / 100)
    dailyPnl := 0
    halted := false }

/-- `DailyLimitTracker.record_pnl`. -/
def DailyLimitTracker.recordPnl (t : DailyLimitTracker) (amount : ℚ) :
    DailyLimitTracker :=
  let pnl := t.dailyPnl + amount
  { t with
    dailyPnl := pnl
    halted := if pnl ≤ -t.maxLossAmount then true else t.halted }

/-- `DailyLimitTracker.is_trading_allowed`. -/
def DailyLimitTracker.isTradingAllowed (t : DailyLimitTracker) : Bool :=
  !t.halted

/-- `DailyLimitTracker.reset`. -/
def DailyLimitTracker.reset (t : DailyLimitTracker) : DailyLimitTracker :=
  { t with dailyPnl := 0, halted := false }

/-- A sequence of `record_pnl` calls. -/
def DailyLimitTracker.recordAll (t : DailyLimitTracker) (amounts : List ℚ) :
    DailyLimitTracker :=
  amounts.foldl DailyLimitTracker.recordPnl t

-- ── Signal Generator (engine/signal_generator.py) ─────────────────────────

/-- The indicator dict as read by `_compute_technical_score`.  A missing
key behaves exactly like its `get` default (`rsi` 50, the rest 0), so the
defaults are representative of absent keys. -/
structure IndicatorValues where
  rsi : ℚ := 50
  macdHist : ℚ := 0
  ema9 : ℚ := 0
  ema21 : ℚ := 0
  close : ℚ := 0
  vwap : ℚ := 0
deriving DecidableEq, Repr

/-- The `ofi_result` dict (`signal_strength`, `direction`). -/
structure OFIInput where
  signalStrength : ℚ := 0
  direction : ℚ := 0
deriving DecidableEq, Repr

/-- The `regime_result` dict (`regime` string, `position_multiplier`). -/
structure RegimeInput where
  regimeStr : String := "NORMAL"
  positionMultiplier : ℚ := 1
deriving DecidableEq, Repr

/-- The `mtf_result` dict (`agreement_score`, `direction`). -/
structure MTFInput where
  agreementScore : ℚ := 0
  direction : ℚ := 0
deriving DecidableEq, Repr

/-- The `kelly_result` dict (`kelly_fraction`). -/
structure KellyInput where
  kellyFraction : ℚ := 0
deriving DecidableEq, Repr

/-- `VolatilityRegime(regime_str)` with the `ValueError → NORMAL` fallback. -/
def parseRegime (s : String) : VolatilityRegime :=
  if s = "EXTREME_LOW_VOL" then .EXTREME_LOW_VOL
  else if s = "LOW_VOL" then .LOW_VOL
  else if s = "NORMAL" then .NORMAL
  else if s = "HIGH_VOL" then .HIGH_VOL
  else if s = "EXTREME_VOL" then .EXTREME_VOL
  else .NORMAL

/-- `engine/signal_generator.py: SignalOutput` (reasoning string omitted). -/
structure SignalOutput where
  signal : TradeSignal
  strength : ℚ
  confidence : ℚ
  technicalScore : ℚ := 0
  ofiScore : ℚ := 0
  regime : VolatilityRegime := .NORMAL
  regimeMultiplier : ℚ := 1
  mtfAgreement : ℚ := 0
  kellyFraction : ℚ := 0
  recommendedStopAtrMult : ℚ := 2
deriving DecidableEq, Repr

/-- `SignalGenerator._compute_technical_score`.  The EMA and VWAP terms
participate only when both of their inputs are truthy (nonzero), mirroring
`if ema_9 and ema_21` / `if close and vwap`. -/
def SignalGenerator.technicalScore (ind : IndicatorValues) : ℚ :=
  let rsiScore : ℚ :=
    if ind.rsi < 30 then 1
    else if 70 < ind.rsi then -1
    else (50 - ind.rsi) / 50
  let macdScore : ℚ :=
    if 0 < ind.macdHist then min (ind.macdHist / 5) 1
    else max (ind.macdHist / 5) (-1)
  let emaActive := ind.ema9 ≠ 0 ∧ ind.ema21 ≠ 0
  let emaScore : ℚ :=
    max (min ((ind.ema9 - ind.ema21) / ind.ema21 * 100) 1) (-1)
  let vwapActive := ind.close ≠ 0 ∧ ind.vwap ≠ 0
  let vwapScore : ℚ :=
    max (min ((ind.close - ind.vwap) / ind.vwap * 100) 1) (-1)
  let score := rsiScore + macdScore + (if emaActive then emaScore else 0) +
    (if vwapActive then vwapScore else 0)
  let n : ℕ := 2 + (if emaActive then 1 else 0) + (if vwapActive then 1 else 0)
  score / (max n 1 : ℕ)

/-- The weighted combined score of `SignalGenerator.generate`
(`W_TECHNICAL=0.40, W_OFI=0.20, W_MTF=0.15, W_KELLY=0.10`), including the
regime multiplication.  Missing dicts (`None`) behave as empty dicts, i.e.
every `get` falls back to its default. -/
def SignalGenerator.combinedScore (ind : IndicatorValues) (ofi : Option OFIInput)
    (mtf : Option MTFInput) (kelly : Option KellyInput) (regimeMult : ℚ) : ℚ :=
  let techScore := SignalGenerator.technicalScore ind
  let ofiScore := ((ofi.map (·.signalStrength)).getD 0)
  let ofiDirection := ((ofi.map (·.direction)).getD 0)
  let mtfAgreement := ((mtf.map (·.agreementScore)).getD 0)
  let mtfDirection := ((mtf.map (·.direction)).getD 0)
  let kellyFraction := ((kelly.map (·.kellyFraction)).getD 0)
  ((40/100) * techScore + (20/100) * ofiScore * ofiDirection +
    (15/100) * mtfAgreement * mtfDirection +
    (10/100) * min kellyFraction (1/4)) * regimeMult

/-- The ±0.15 signal decision of `SignalGenerator.generate`. -/
def SignalGenerator.decision (combined : ℚ) : TradeSignal :=
  if 15/100 < combined then .BUY
  else if combined < -(15/100) then .SELL
  else .HOLD

/-- `SignalGenerator.generate`. -/
def SignalGenerator.generate (ind : IndicatorValues) (ofi : Option OFIInput)
    (regime : Option RegimeInput) (mtf : Option MTFInput)
    (kelly : Option KellyInput) : SignalOutput :=
  let ofiScore := ((ofi.map (·.signalStrength)).getD 0)
  let regimeVal := parseRegime ((regime.map (·.regimeStr)).getD "NORMAL")
  let regimeMult := ((regime.map (·.positionMultiplier)).getD 1)
  let mtfAgreement := ((mtf.map (·.agreementScore)).getD 0)
  let kellyFraction := ((kelly.map (·.kellyFraction)).getD 0)
  let combined := SignalGenerator.combinedScore ind ofi mtf kelly regimeMult
  let strength := |combined|
  let confidence₀ := min (strength * (3/2)) 1
  let signal := SignalGenerator.decision combined
  let confidence :=
    if mtfAgreement < 3/10 ∧ signal ≠ TradeSignal.HOLD then
      confidence₀ * (7/10)
    else confidence₀
  { signal := signal
    strength := roundTo strength 4
    confidence := roundTo confidence 4
    technicalScore := roundTo (SignalGenerator.technicalScore ind) 4
    ofiScore := roundTo ofiScore 4
    regime := regimeVal
    regimeMultiplier := regimeMult
    mtfAgreement := roundTo mtfAgreement 4
    kellyFraction := roundTo kellyFraction 4 }

-- ── Trade Confirmation (engine/trade_confirmation.py) ─────────────────────

/-- Constructor arguments of `TradeConfirmation`. -/
structure TradeConfirmationConfig where
  minConfidence : ℚ := 1/2
  minStrength : ℚ := 1/10
  maxPositionPct : ℚ := 5
deriving DecidableEq, Repr

/-- `engine/trade_confirmation.py: ConfirmationResult` (the human-readable
reason strings are not modelled; no claim touches them). -/
structure ConfirmationResult where
  approved : Bool
  signal : TradeSignal
  positionSizePct : ℚ
deriving DecidableEq, Repr

/-- The confirmation gate's own `regime_scale` lookup table inside
`_compute_size` (note: distinct from the regime detector's
`position_size_multiplier` table in `inc2_volatility.py`). -/
def TradeConfirmation.regimeScale : VolatilityRegime → ℚ
  | .EXTREME_LOW_VOL => 5/10
  | .LOW_VOL => 8/10
  | .NORMAL => 1
  | .HIGH_VOL => 6/10
  | .EXTREME_VOL => 3/10

/-- `TradeConfirmation._compute_size`. -/
def TradeConfirmation.computeSize (cfg : TradeConfirmationConfig)
    (signal : SignalOutput) : ℚ :=
  let base := cfg.maxPositionPct * signal.confidence *
    TradeConfirmation.regimeScale signal.regime
  let base' := if 0 < signal.kellyFraction then
      min base (signal.kellyFraction * 100)
    else base
  min base' cfg.maxPositionPct

/-- `TradeConfirmation.check`: the five gates and the sizing. -/
def TradeConfirmation.check (cfg : TradeConfirmationConfig)
    (signal : SignalOutput) (riskAllowed : Bool)
    (currentPositionCount : ℕ) (maxPositions : ℕ) :
    ConfirmationResult :=
  let approved :=
    decide (signal.signal ≠ TradeSignal.HOLD) &&
    decide (cfg.minConfidence ≤ signal.confidence) &&
    decide (cfg.minStrength ≤ signal.strength) &&
    riskAllowed &&
    decide (currentPositionCount < maxPositions)
  let positionPct := if approved then TradeConfirmation.computeSize cfg signal else 0
  { approved := approved
    signal := signal.signal
    positionSizePct := roundTo positionPct 2 }

-- ── Trading loop signal pipeline (engine/trading_loop.py) ─────────────────

/-- `TradingLoop._generate_signal` viewed at the signal-generation boundary:
both `process_tick` and `process_ai_intent` call `signal_gen.generate`
with `ofi_result`, `regime_result` and `kelly_result` dicts but never an
`mtf_result` (so the generator's `mtf_result` argument stays `None`). -/
def TradingLoop.generateSignal (ind : IndicatorValues) (ofi : OFIInput)
    (regime : RegimeInput) (kelly : KellyInput) : SignalOutput :=
  SignalGenerator.generate ind (some ofi) (some regime) none (some kelly)

-- ── Shared small lemmas ───────────────────────────────────────────────────

theorem roundTo_zero (n : ℕ) : roundTo (0 : ℚ) n = 0 := by
  have h : pyRound (0 : ℚ) = 0 := by
    unfold pyRound
    norm_num
  simp [roundTo, h]

/-- A halted tracker stays halted under any further `record_pnl` calls. -/
theorem dailyLimit_halted_stays (amounts : List ℚ) :
    ∀ t : DailyLimitTracker, t.halted = true →
      (t.recordAll amounts).halted = true := by
  induction amounts with
  | nil => intro t h; exact h
  | cons a rest ih =>
      intro t h
      apply ih
      simp only [DailyLimitTracker.recordPnl]
      split <;> simp [h]

-- ── C3 ────────────────────────────────────────────────────────────────────

/-- C3: once a `record_pnl` call brings the cumulative daily P&L to (or
below) `-(capital * max_loss_pct / 100)` — the tracker's precomputed
`_max_loss_amount` — `is_trading_allowed()` is false and remains false
under every later `record_pnl` call (profitable ones included), until
`reset()`, after which trading is allowed again and the P&L is zero. -/
theorem dailyLimit_latch (t : DailyLimitTracker) (a : ℚ) (later : List ℚ)
    (h : (t.recordPnl a).dailyPnl ≤ -t.maxLossAmount) :
    (t.recordPnl a).isTradingAllowed = false ∧
    ((t.recordPnl a).recordAll later).isTradingAllowed = false ∧
    (((t.recordPnl a).recordAll later).reset).isTradingAllowed = true ∧
    (((t.recordPnl a).recordAll later).reset).dailyPnl = 0 := by
  have hhalt : (t.recordPnl a).halted = true := by
    simp only [DailyLimitTracker.recordPnl] at h ⊢
    simp [h]
  have hstays := dailyLimit_halted_stays later _ hhalt
  refine ⟨?_, ?_, ?_, ?_⟩
  · simp [DailyLimitTracker.isTradingAllowed, hhalt]
  · simp [DailyLimitTracker.isTradingAllowed, hstays]
  · simp [DailyLimitTracker.isTradingAllowed, DailyLimitTracker.reset]
  · simp [DailyLimitTracker.reset]

/-- Witness for C3: capital 100000, 2% limit, a -2000 loss hits the limit
exactly; trading stays halted through a +5000 win until `reset()`. -/
theorem dailyLimit_latch_witness :
    ((DailyLimitTracker.init 2 100000).recordPnl (-2000)).dailyPnl ≤
      -(DailyLimitTracker.init 2 100000).maxLossAmount ∧
    ((DailyLimitTracker.init 2 100000).recordPnl (-2000)).isTradingAllowed = false ∧
    (((DailyLimitTracker.init 2 100000).recordPnl (-2000)).recordAll
        [5000, 1000]).isTradingAllowed = false ∧
    ((((DailyLimitTracker.init 2 100000).recordPnl (-2000)).recordAll
        [5000, 1000]).reset).isTradingAllowed = true ∧
    ((((DailyLimitTracker.init 2 100000).recordPnl (-2000)).recordAll
        [5000, 1000]).reset).dailyPnl = 0 := by
  have h : ((DailyLimitTracker.init 2 100000).recordPnl (-2000)).dailyPnl ≤
      -(DailyLimitTracker.init 2 100000).maxLossAmount := by
    simp [DailyLimitTracker.init, DailyLimitTracker.recordPnl]
    norm_num
  obtain ⟨h1, h2, h3, h4⟩ :=
    dailyLimit_latch (DailyLimitTracker.init 2 100000) (-2000) [5000, 1000] h
  exact ⟨h, h1, h2, h3, h4⟩

-- ── C7 ────────────────────────────────────────────────────────────────────

/-- C7: with fewer than `min_trades` recorded trades, `calculate` returns
`is_active = false`, `fractional_kelly = 0.01` and a recommended risk
amount of exactly 1% of capital, for any capital, entry and stop price. -/
theorem kelly_below_min_trades (cfg : KellyConfig) (trades : List TradeResult)
    (capital entryPrice stopLossPrice : ℚ)
    (h : trades.length < cfg.minTrades) :
    (KellyCriterionSizer.calculate cfg trades capital entryPrice
        stopLossPrice).isActive = false ∧
    (KellyCriterionSizer.calculate cfg trades capital entryPrice
        stopLossPrice).fractionalKelly = 1/100 ∧
    (KellyCriterionSizer.calculate cfg trades capital entryPrice
        stopLossPrice).positionSizeRupees = capital * (1/100) := by
  simp [KellyCriterionSizer.calculate, h]

/-- Witness for C7: the default config (min 20 trades) with an empty
history, capital 100000, entry 100, stop 98. -/
theorem kelly_below_min_trades_witness :
    ([] : List TradeResult).length < (20 : ℕ) ∧
    (KellyCriterionSizer.calculate ⟨1/4, 20, 1/10⟩ [] 100000 100
        98).isActive = false ∧
    (KellyCriterionSizer.calculate ⟨1/4, 20, 1/10⟩ [] 100000 100
        98).fractionalKelly = 1/100 ∧
    (KellyCriterionSizer.calculate ⟨1/4, 20, 1/10⟩ [] 100000 100
        98).positionSizeRupees = 100000 * (1/100) := by
  have h : ([] : List TradeResult).length < (⟨1/4, 20, 1/10⟩ : KellyConfig).minTrades := by
    simp
  exact ⟨by simp, (kelly_below_min_trades ⟨1/4, 20, 1/10⟩ [] 100000 100 98 h).1,
    (kelly_below_min_trades ⟨1/4, 20, 1/10⟩ [] 100000 100 98 h).2.1,
    (kelly_below_min_trades ⟨1/4, 20, 1/10⟩ [] 100000 100 98 h).2.2⟩

-- ── C9 ────────────────────────────────────────────────────────────────────

/-- Counterexample for C9: a BUY signal with confidence 0.50 checked with
`min_confidence = 0.65` is rejected, but the returned result's `signal`
field is the unchanged input signal (BUY), not HOLD: `check` builds
`ConfirmationResult(signal=signal.signal, ...)` and never rewrites it. -/
theorem confirmation_signal_not_forced_to_hold :
    (TradeConfirmation.check ⟨13/20, 1/10, 5⟩
      { signal := .BUY, strength := 1/2, confidence := 1/2 } true 0 5).approved
        = false ∧
    (TradeConfirmation.check ⟨13/20, 1/10, 5⟩
      { signal := .BUY, strength := 1/2, confidence := 1/2 } true 0 5).signal
        = TradeSignal.BUY ∧
    TradeSignal.BUY ≠ TradeSignal.HOLD := by
  refine ⟨?_, ?_, by simp⟩
  · simp [TradeConfirmation.check]
    norm_num
  · simp [TradeConfirmation.check]

/-- C9 (amended): when the signal's confidence is below `min_confidence`
the trade is rejected — `approved = false` with position size 0 — while
the result's `signal` field passes through unchanged (it is *not* forced
to HOLD; rejection is conveyed by the `approved` flag alone). -/
theorem confirmation_low_confidence_rejected (cfg : TradeConfirmationConfig)
    (s : SignalOutput) (riskAllowed : Bool) (count maxPositions : ℕ)
    (h : s.confidence < cfg.minConfidence) :
    (TradeConfirmation.check cfg s riskAllowed count maxPositions).approved
      = false ∧
    (TradeConfirmation.check cfg s riskAllowed count maxPositions).positionSizePct
      = 0 ∧
    (TradeConfirmation.check cfg s riskAllowed count maxPositions).signal
      = s.signal := by
  have hgate : ¬ (cfg.minConfidence ≤ s.confidence) := not_le.mpr h
  refine ⟨?_, ?_, by simp [TradeConfirmation.check]⟩
  · simp [TradeConfirmation.check, hgate]
  · simp [TradeConfirmation.check, hgate, roundTo_zero]

/-- Witness for C9's amended theorem at the spec's scenario values. -/
theorem confirmation_low_confidence_rejected_witness :
    ((1:ℚ)/2 < (13:ℚ)/20) ∧
    (TradeConfirmation.check ⟨13/20, 1/10, 5⟩
      { signal := .SELL, strength := 1/2, confidence := 1/2 } true 0 5).approved
        = false ∧
    (TradeConfirmation.check ⟨13/20, 1/10, 5⟩
      { signal := .SELL, strength := 1/2, confidence := 1/2 } true 0 5).positionSizePct
        = 0 ∧
    (TradeConfirmation.check ⟨13/20, 1/10, 5⟩
      { signal := .SELL, strength := 1/2, confidence := 1/2 } true 0 5).signal
        = TradeSignal.SELL := by
  have h : ({ signal := .SELL, strength := 1/2, confidence := 1/2 } : SignalOutput).confidence
      < (⟨13/20, 1/10, 5⟩ : TradeConfirmationConfig).minConfidence := by
    norm_num
  obtain ⟨h1, h2, h3⟩ := confirmation_low_confidence_rejected ⟨13/20, 1/10, 5⟩
    { signal := .SELL, strength := 1/2, confidence := 1/2 } true 0 5 h
  exact ⟨by norm_num, h1, h2, h3⟩

-- ── C4 ────────────────────────────────────────────────────────────────────

/-- Counterexample for C4, two parts.  (a) For a HIGH_VOL signal the gate
sizes with its own internal scale 0.6, not "the regime's position-size
multiplier" (the detector's `position_size_multiplier`, 0.7 for HIGH_VOL,
carried on the signal as `regime_multiplier`): an approved trade with
confidence 0.5 and `max_position_pct = 5` gets 1.5%, not 5·0.5·0.7 = 1.75%.
(b) The stored percentage is rounded to 2 decimals: confidence 1/3 in a
NORMAL regime yields 1.67%, not 5·(1/3)·1 = 5/3%. -/
theorem confirmation_size_counterexample :
    ((TradeConfirmation.check ⟨1/4, 1/10, 5⟩
        { signal := .BUY, strength := 1/2, confidence := 1/2,
          regime := .HIGH_VOL, regimeMultiplier := 7/10 } true 0 5).approved
          = true ∧
      (TradeConfirmation.check ⟨1/4, 1/10, 5⟩
        { signal := .BUY, strength := 1/2, confidence := 1/2,
          regime := .HIGH_VOL, regimeMultiplier := 7/10 } true 0 5).positionSizePct
          = 3/2 ∧
      (3/2 : ℚ) ≠ 5 * (1/2) * (7/10)) ∧
    ((TradeConfirmation.check ⟨1/4, 1/10, 5⟩
        { signal := .BUY, strength := 1/2, confidence := 1/3 } true 0 5).approved
          = true ∧
      (TradeConfirmation.check ⟨1/4, 1/10, 5⟩
        { signal := .BUY, strength := 1/2, confidence := 1/3 } true 0 5).positionSizePct
          = 167/100 ∧
      (167/100 : ℚ) ≠ 5 * (1/3) * 1) := by
  refine ⟨⟨?_, ?_, by norm_num⟩, ⟨?_, ?_, by norm_num⟩⟩
  · simp [TradeConfirmation.check]; norm_num
  · simp [TradeConfirmation.check, TradeConfirmation.computeSize,
      TradeConfirmation.regimeScale, roundTo, pyRound]
    norm_num
  · simp [TradeConfirmation.check]; norm_num
  · simp [TradeConfirmation.check, TradeConfirmation.computeSize,
      TradeConfirmation.regimeScale, roundTo, pyRound]
    norm_num [Int.fract]

/-- C4 (amended): the trade is approved iff all five gates pass (non-HOLD
signal; confidence ≥ min_confidence; strength ≥ min_strength; risk allowed;
open-position count < max_positions).  On approval the stored position size
percentage equals `max_position_pct × confidence × regime_scale(regime)` —
where `regime_scale` is the gate's own table in `_compute_size`, not the
regime detector's multiplier — capped by `100 × kelly_fraction` whenever
the signal's Kelly fraction is positive, capped at `max_position_pct`, and
rounded to two decimal places.  On rejection the percentage is 0. -/
theorem confirmation_gates_and_size (cfg : TradeConfirmationConfig)
    (s : SignalOutput) (riskAllowed : Bool) (count maxPositions : ℕ) :
    ((TradeConfirmation.check cfg s riskAllowed count maxPositions).approved = true ↔
      (s.signal ≠ TradeSignal.HOLD ∧ cfg.minConfidence ≤ s.confidence ∧
        cfg.minStrength ≤ s.strength ∧ riskAllowed = true ∧
        count < maxPositions)) ∧
    ((TradeConfirmation.check cfg s riskAllowed count maxPositions).approved = true →
      (TradeConfirmation.check cfg s riskAllowed count maxPositions).positionSizePct =
        roundTo (min (if 0 < s.kellyFraction then
            min (cfg.maxPositionPct * s.confidence * TradeConfirmation.regimeScale s.regime)
              (s.kellyFraction * 100)
          else cfg.maxPositionPct * s.confidence * TradeConfirmation.regimeScale s.regime)
          cfg.maxPositionPct) 2) ∧
    ((TradeConfirmation.check cfg s riskAllowed count maxPositions).approved = false →
      (TradeConfirmation.check cfg s riskAllowed count maxPositions).positionSizePct
        = 0) := by
  refine ⟨?_, ?_, ?_⟩
  · simp [TradeConfirmation.check, and_assoc]
  · intro h
    simp only [TradeConfirmation.check] at h ⊢
    simp only [h, if_true, Bool.ite_eq_true_distrib]
    simp [TradeConfirmation.computeSize]
  · intro h
    simp only [TradeConfirmation.check] at h ⊢
    rw [h]
    simp [roundTo_zero]

/-- Witness for C4's amended theorem: an approved BUY in a LOW_VOL regime
with an active Kelly fraction of 0.02 (cap 2%) and confidence 0.9. -/
theorem confirmation_gates_and_size_witness :
    ((TradeConfirmation.check ⟨1/2, 1/10, 5⟩
      { signal := .BUY, strength := 3/5, confidence := 9/10,
        regime := .LOW_VOL, kellyFraction := 1/50 } true 0 5).approved = true ↔
      (TradeSignal.BUY ≠ TradeSignal.HOLD ∧ (1:ℚ)/2 ≤ 9/10 ∧
        (1:ℚ)/10 ≤ 3/5 ∧ true = true ∧ (0:ℕ) < 5)) ∧
    ((TradeConfirmation.check ⟨1/2, 1/10, 5⟩
      { signal := .BUY, strength := 3/5, confidence := 9/10,
        regime := .LOW_VOL, kellyFraction := 1/50 } true 0 5).positionSizePct
        = 2) := by
  have h := confirmation_gates_and_size ⟨1/2, 1/10, 5⟩
    { signal := .BUY, strength := 3/5, confidence := 9/10,
      regime := .LOW_VOL, kellyFraction := 1/50 } true 0 5
  refine ⟨h.1, ?_⟩
  have happ : (TradeConfirmation.check ⟨1/2, 1/10, 5⟩
      { signal := .BUY, strength := 3/5, confidence := 9/10,
        regime := .LOW_VOL, kellyFraction := 1/50 } true 0 5).approved = true := by
    apply h.1.mpr
    refine ⟨by simp, by norm_num, by norm_num, rfl, by norm_num⟩
  rw [h.2.1 happ]
  -- 5 * (9/10) * 0.8 = 3.6, capped by 100 * (1/50) = 2, capped at 5 → 2
  have hval : (min (if (0:ℚ) < 1/50 then
      min ((5:ℚ) * (9/10) * TradeConfirmation.regimeScale VolatilityRegime.LOW_VOL)
        ((1/50) * 100)
    else (5:ℚ) * (9/10) * TradeConfirmation.regimeScale VolatilityRegime.LOW_VOL)
    (5:ℚ)) = 2 := by
    simp [TradeConfirmation.regimeScale]
    norm_num
  rw [hval]
  unfold roundTo pyRound
  norm_num

-- ── C8 ────────────────────────────────────────────────────────────────────

/-- The analyzer's signal is determined by its own `ofi` field via the
threshold comparisons (definitional reading of `analyze`). -/
theorem ofi_analyze_signal_cases (accThreshold distThreshold : ℚ)
    (snapshot : OrderBookSnapshot) :
    (OrderFlowAnalyzer.analyze accThreshold distThreshold snapshot).signal =
      (if accThreshold <
          (OrderFlowAnalyzer.analyze accThreshold distThreshold snapshot).ofi
        then .BUY
        else if (OrderFlowAnalyzer.analyze accThreshold distThreshold
            snapshot).ofi < distThreshold
        then .SELL
        else .HOLD) := rfl

/-- C8: for every order book snapshot, the OFI equals
`(Σ bid qty − Σ ask qty) / (Σ bid qty + Σ ask qty)` (0 when the total is
0, which covers both sides empty), the signal is BUY iff OFI > 0.3, SELL
iff OFI < −0.3 and HOLD otherwise; equal bid and ask volume forces
imbalance 0 and HOLD.  Thresholds are the analyzer defaults ±0.3. -/
theorem ofi_analyze_spec (snapshot : OrderBookSnapshot) :
    ((OrderFlowAnalyzer.analyze (3/10) (-(3/10)) snapshot).ofi =
      ((snapshot.bidVolume : ℚ) - (snapshot.askVolume : ℚ)) /
        ((snapshot.bidVolume : ℚ) + (snapshot.askVolume : ℚ))) ∧
    ((OrderFlowAnalyzer.analyze (3/10) (-(3/10)) snapshot).signal = .BUY ↔
      3/10 < (OrderFlowAnalyzer.analyze (3/10) (-(3/10)) snapshot).ofi) ∧
    ((OrderFlowAnalyzer.analyze (3/10) (-(3/10)) snapshot).signal = .SELL ↔
      (OrderFlowAnalyzer.analyze (3/10) (-(3/10)) snapshot).ofi < -(3/10)) ∧
    ((OrderFlowAnalyzer.analyze (3/10) (-(3/10)) snapshot).signal = .HOLD ↔
      (-(3/10) ≤ (OrderFlowAnalyzer.analyze (3/10) (-(3/10)) snapshot).ofi ∧
        (OrderFlowAnalyzer.analyze (3/10) (-(3/10)) snapshot).ofi ≤ 3/10)) ∧
    (snapshot.bidVolume = snapshot.askVolume →
      (OrderFlowAnalyzer.analyze (3/10) (-(3/10)) snapshot).ofi = 0 ∧
      (OrderFlowAnalyzer.analyze (3/10) (-(3/10)) snapshot).signal = .HOLD) := by
  have hofi : (OrderFlowAnalyzer.analyze (3/10) (-(3/10)) snapshot).ofi =
      ((snapshot.bidVolume : ℚ) - (snapshot.askVolume : ℚ)) /
        ((snapshot.bidVolume : ℚ) + (snapshot.askVolume : ℚ)) := by
    simp only [OrderFlowAnalyzer.analyze]
    by_cases h : snapshot.bidVolume + snapshot.askVolume = 0
    · have hc : ((snapshot.bidVolume : ℚ) + (snapshot.askVolume : ℚ)) = 0 := by
        exact_mod_cast congrArg (fun z : ℤ => (z : ℚ)) h
      simp [h, hc]
    · simp only [h, if_false]
      push_cast
      ring
  have hsig := ofi_analyze_signal_cases (3/10) (-(3/10)) snapshot
  refine ⟨hofi, ?_, ?_, ?_, ?_⟩
  · rw [hsig]
    split_ifs with h1 h2 <;> simp_all
  · rw [hsig]
    split_ifs with h1 h2 <;> simp_all
    linarith
  · rw [hsig]
    split_ifs with h1 h2 <;> simp_all
  · intro heq
    have h0 : (OrderFlowAnalyzer.analyze (3/10) (-(3/10)) snapshot).ofi = 0 := by
      rw [hofi, heq]
      simp
    refine ⟨h0, ?_⟩
    rw [hsig, h0]
    norm_num

/-- Witness for C8 (the final implication) at the spec's example book:
bid 1000 vs ask 200 gives OFI = +2/3 (BUY), and a balanced 500/500 book
gives OFI 0 and HOLD. -/
theorem ofi_analyze_spec_witness :
    ((OrderFlowAnalyzer.analyze (3/10) (-(3/10))
      { symbol := "NIFTY50", bids := [⟨100, 1000, 0⟩], asks := [⟨101, 200, 0⟩] }).signal
        = .BUY) ∧
    ((OrderFlowAnalyzer.analyze (3/10) (-(3/10))
      { symbol := "NIFTY50", bids := [⟨100, 1000, 0⟩], asks := [⟨101, 200, 0⟩] }).ofi
        = 2/3) ∧
    ((OrderFlowAnalyzer.analyze (3/10) (-(3/10))
      { symbol := "NIFTY50", bids := [⟨100, 500, 0⟩], asks := [⟨101, 500, 0⟩] }).ofi
        = 0) ∧
    ((OrderFlowAnalyzer.analyze (3/10) (-(3/10))
      { symbol := "NIFTY50", bids := [⟨100, 500, 0⟩], asks := [⟨101, 500, 0⟩] }).signal
        = .HOLD) := by
  have hbal := (ofi_analyze_spec
    { symbol := "NIFTY50", bids := [⟨100, 500, 0⟩], asks := [⟨101, 500, 0⟩] }).2.2.2.2
    (by simp [OrderBookSnapshot.bidVolume, OrderBookSnapshot.askVolume])
  have hbuy := (ofi_analyze_spec
    { symbol := "NIFTY50", bids := [⟨100, 1000, 0⟩], asks := [⟨101, 200, 0⟩] }).2.1
  have hofi := (ofi_analyze_spec
    { symbol := "NIFTY50", bids := [⟨100, 1000, 0⟩], asks := [⟨101, 200, 0⟩] }).1
  have hval : (OrderFlowAnalyzer.analyze (3/10) (-(3/10))
      { symbol := "NIFTY50", bids := [⟨100, 1000, 0⟩], asks := [⟨101, 200, 0⟩] }).ofi
        = 2/3 := by
    rw [hofi]
    simp [OrderBookSnapshot.bidVolume, OrderBookSnapshot.askVolume]
    norm_num
  refine ⟨hbuy.mpr ?_, hval, hbal.1, hbal.2⟩
  rw [hval]
  norm_num

-- ── C2 ────────────────────────────────────────────────────────────────────

/-- One `update` call never moves a LONG stop down nor any other side's
stop up, for the tracked symbol, and leaves every stop's side (and its
presence in the map) intact. -/
theorem prm_update_step (m : PositionRiskManager) (sym : String)
    (sl : StopLevel) (c : String × ℚ × ℚ) (h : m.stops sym = some sl) :
    ∃ sl', ((m.update c.1 c.2.1 c.2.2).2).stops sym = some sl' ∧
      sl'.side = sl.side ∧
      (sl.side = "LONG" → sl.stopPrice ≤ sl'.stopPrice) ∧
      (sl.side ≠ "LONG" → sl'.stopPrice ≤ sl.stopPrice) := by
  obtain ⟨csym, price, atr⟩ := c
  cases hm : m.stops csym with
  | none =>
      refine ⟨sl, ?_, rfl, fun _ => le_rfl, fun _ => le_rfl⟩
      simp [PositionRiskManager.update, hm, h]
  | some sl₀ =>
      by_cases hsym : sym = csym
      · subst hsym
        rw [h] at hm
        have hsl : sl₀ = sl := (Option.some_inj.mp hm).symm
        subst hsl
        by_cases hside : sl₀.side = "LONG"
        · refine ⟨{ sl₀ with
              highestSinceEntry := max sl₀.highestSinceEntry price,
              stopPrice := max sl₀.stopPrice
                (roundTo (max sl₀.highestSinceEntry price -
                  atr * sl₀.atrMultiplier) 2) }, ?_, rfl,
            fun _ => le_max_left _ _, fun hne => absurd hside hne⟩
          simp [PositionRiskManager.update, h, hside]
        · refine ⟨{ sl₀ with
              lowestSinceEntry := min sl₀.lowestSinceEntry price,
              stopPrice := min sl₀.stopPrice
                (roundTo (min sl₀.lowestSinceEntry price +
                  atr * sl₀.atrMultiplier) 2) }, ?_, rfl,
            fun hl => absurd hl hside, fun _ => min_le_left _ _⟩
          simp [PositionRiskManager.update, h, hside]
      · refine ⟨sl, ?_, rfl, fun _ => le_rfl, fun _ => le_rfl⟩
        simp only [PositionRiskManager.update, hm]
        split_ifs <;> simp [hsym, h]

/-- Monotonicity of the tracked stop over any sequence of updates
(generalised to an arbitrary non-LONG side for the downward claim). -/
theorem prm_monotone_aux (calls : List (String × ℚ × ℚ)) :
    ∀ (m : PositionRiskManager) (sym : String) (sl : StopLevel),
      m.stops sym = some sl →
      ∃ sl', (m.applyUpdates calls).stops sym = some sl' ∧
        sl'.side = sl.side ∧
        (sl.side = "LONG" → sl.stopPrice ≤ sl'.stopPrice) ∧
        (sl.side ≠ "LONG" → sl'.stopPrice ≤ sl.stopPrice) := by
  induction calls with
  | nil =>
      intro m sym sl h
      exact ⟨sl, h, rfl, fun _ => le_rfl, fun _ => le_rfl⟩
  | cons c rest ih =>
      intro m sym sl h
      obtain ⟨sl₁, h₁, hside₁, hup₁, hdown₁⟩ := prm_update_step m sym sl c h
      obtain ⟨sl', h', hside', hup', hdown'⟩ := ih _ sym sl₁ h₁
      refine ⟨sl', h', hside'.trans hside₁, ?_, ?_⟩
      · intro hl
        exact le_trans (hup₁ hl) (hup' (hside₁.trans hl))
      · intro hl
        exact le_trans (hdown' fun hc => hl (hside₁ ▸ hc)) (hdown₁ hl)

/-- C2: for every tracked position and every sequence of
`update(symbol, price, atr)` calls with arbitrary prices and ATRs, a LONG
position's stop price never decreases and a SHORT position's stop price
never increases (the stop only trails favourably), and the position's
side never changes, until it is removed. -/
theorem trailing_stop_monotone (m : PositionRiskManager) (sym : String)
    (sl : StopLevel) (calls : List (String × ℚ × ℚ))
    (h : m.stops sym = some sl) :
    ∃ sl', (m.applyUpdates calls).stops sym = some sl' ∧
      sl'.side = sl.side ∧
      (sl.side = "LONG" → sl.stopPrice ≤ sl'.stopPrice) ∧
      (sl.side = "SHORT" → sl'.stopPrice ≤ sl.stopPrice) := by
  obtain ⟨sl', h', hside, hup, hdown⟩ := prm_monotone_aux calls m sym sl h
  refine ⟨sl', h', hside, hup, fun hs => hdown ?_⟩
  rw [hs]
  decide

/-- Witness for C2: a LONG position registered at 100 with ATR 2 (stop
96), then updated through a rally to 110 (stop rises) and an unrelated
symbol's update; the theorem instantiates and the stop stays ≥ 96. -/
theorem trailing_stop_monotone_witness :
    ∃ sl', ((((PositionRiskManager.init 2).registerPosition "TCS" "LONG"
        100 2).2).applyUpdates
          [("TCS", 110, 2), ("INFY", 50, 1), ("TCS", 104, 2)]).stops "TCS"
        = some sl' ∧
      sl'.side = "LONG" ∧
      (((PositionRiskManager.init 2).registerPosition "TCS" "LONG"
        100 2).1).stopPrice ≤ sl'.stopPrice := by
  have h : (((PositionRiskManager.init 2).registerPosition "TCS" "LONG"
      100 2).2).stops "TCS" = some
        (((PositionRiskManager.init 2).registerPosition "TCS" "LONG"
          100 2).1) := by
    simp [PositionRiskManager.init, PositionRiskManager.registerPosition]
  obtain ⟨sl', h', hside, hup, _⟩ := trailing_stop_monotone _ "TCS" _
    [("TCS", 110, 2), ("INFY", 50, 1), ("TCS", 104, 2)] h
  refine ⟨sl', h', ?_, hup ?_⟩ <;>
    simp_all [PositionRiskManager.registerPosition]

-- ── C5 ────────────────────────────────────────────────────────────────────

/-- Definitional reading of the stored strength: `round(|combined|, 4)`. -/
theorem generate_strength_def (ind : IndicatorValues) (ofi : Option OFIInput)
    (regime : Option RegimeInput) (mtf : Option MTFInput)
    (kelly : Option KellyInput) :
    (SignalGenerator.generate ind ofi regime mtf kelly).strength =
      roundTo |SignalGenerator.combinedScore ind ofi mtf kelly
        ((regime.map (·.positionMultiplier)).getD 1)| 4 := rfl

/-- Definitional reading of the stored signal. -/
theorem generate_signal_def (ind : IndicatorValues) (ofi : Option OFIInput)
    (regime : Option RegimeInput) (mtf : Option MTFInput)
    (kelly : Option KellyInput) :
    (SignalGenerator.generate ind ofi regime mtf kelly).signal =
      SignalGenerator.decision (SignalGenerator.combinedScore ind ofi mtf
        kelly ((regime.map (·.positionMultiplier)).getD 1)) := rfl

/-- Definitional reading of the stored confidence: `min(1.5·|combined|, 1)`,
multiplied by 0.7 exactly when MTF agreement < 0.3 *and* the decided signal
is not HOLD, rounded to 4 decimals. -/
theorem generate_confidence_def (ind : IndicatorValues) (ofi : Option OFIInput)
    (regime : Option RegimeInput) (mtf : Option MTFInput)
    (kelly : Option KellyInput) :
    (SignalGenerator.generate ind ofi regime mtf kelly).confidence =
      roundTo (if ((mtf.map (·.agreementScore)).getD 0) < 3/10 ∧
          SignalGenerator.decision (SignalGenerator.combinedScore ind ofi mtf
            kelly ((regime.map (·.positionMultiplier)).getD 1)) ≠
              TradeSignal.HOLD then
        (min (|SignalGenerator.combinedScore ind ofi mtf kelly
          ((regime.map (·.positionMultiplier)).getD 1)| * (3/2)) 1) * (7/10)
      else
        min (|SignalGenerator.combinedScore ind ofi mtf kelly
          ((regime.map (·.positionMultiplier)).getD 1)| * (3/2)) 1) 4 := rfl

/-- Definitional reading of the stored MTF agreement. -/
theorem generate_mtfAgreement_def (ind : IndicatorValues)
    (ofi : Option OFIInput) (regime : Option RegimeInput)
    (mtf : Option MTFInput) (kelly : Option KellyInput) :
    (SignalGenerator.generate ind ofi regime mtf kelly).mtfAgreement =
      roundTo ((mtf.map (·.agreementScore)).getD 0) 4 := rfl

set_option maxRecDepth 8192 in
/-- Counterexample for C5, three parts.  (a) Strength can exceed 1: with
oversold RSI, a strong MACD, full OFI and MTF agreement, a capped Kelly
fraction and the EXTREME_LOW_VOL regime multiplier 1.5 (the regime
detector's own table value), the combined score is 1.1625, which is stored
as the strength.  (b) The ×0.7 discount is *not* applied to HOLD signals
even when MTF agreement (0) is below 0.3: a weak signal keeps confidence
0.03 instead of the claimed 0.021.  (c) The stored strength is rounded to
4 decimals, so it can differ from |combined| (1/15 vs 0.0667). -/
theorem signal_generate_counterexample :
    (1 < (SignalGenerator.generate ⟨20, 10, 0, 0, 0, 0⟩ (some ⟨1, 1⟩)
      (some ⟨"EXTREME_LOW_VOL", 3/2⟩) (some ⟨1, 1⟩) (some ⟨1/4⟩)).strength) ∧
    ((SignalGenerator.generate ⟨45, 0, 0, 0, 0, 0⟩ none none none
        none).confidence = 3/100 ∧
      (SignalGenerator.generate ⟨45, 0, 0, 0, 0, 0⟩ none none none
        none).mtfAgreement < 3/10 ∧
      (3/100 : ℚ) ≠ (7/10) * min ((3/2) *
        (SignalGenerator.generate ⟨45, 0, 0, 0, 0, 0⟩ none none none
          none).strength) 1) ∧
    (SignalGenerator.combinedScore ⟨50, 0, 0, 0, 0, 0⟩ (some ⟨1/3, 1⟩)
        none none 1 = 1/15 ∧
      (SignalGenerator.generate ⟨50, 0, 0, 0, 0, 0⟩ (some ⟨1/3, 1⟩) none
        none none).strength ≠ |(1/15 : ℚ)|) := by
  have hcombA : SignalGenerator.combinedScore ⟨20, 10, 0, 0, 0, 0⟩
      (some ⟨1, 1⟩) (some ⟨1, 1⟩) (some ⟨1/4⟩) (3/2) = 93/80 := by
    norm_num [SignalGenerator.combinedScore, SignalGenerator.technicalScore]
  have hcombB : SignalGenerator.combinedScore ⟨45, 0, 0, 0, 0, 0⟩ none none
      none 1 = 1/50 := by
    norm_num [SignalGenerator.combinedScore, SignalGenerator.technicalScore]
  have hcombC : SignalGenerator.combinedScore ⟨50, 0, 0, 0, 0, 0⟩
      (some ⟨1/3, 1⟩) none none 1 = 1/15 := by
    norm_num [SignalGenerator.combinedScore, SignalGenerator.technicalScore]
  have hstrB : (SignalGenerator.generate ⟨45, 0, 0, 0, 0, 0⟩ none none none
      none).strength = 1/50 := by
    rw [generate_strength_def]
    simp only [Option.map_none', Option.map_some', Option.getD_some, Option.getD_none]
    rw [hcombB, abs_of_nonneg (by norm_num : (0:ℚ) ≤ 1/50)]
    unfold roundTo pyRound
    norm_num
  refine ⟨?_, ⟨?_, ?_, ?_⟩, ⟨hcombC, ?_⟩⟩
  · rw [generate_strength_def]
    simp only [Option.map_none', Option.map_some', Option.getD_some, Option.getD_none]
    rw [hcombA, abs_of_nonneg (by norm_num : (0:ℚ) ≤ 93/80)]
    unfold roundTo pyRound
    norm_num
  · rw [generate_confidence_def]
    simp only [Option.map_none', Option.map_some', Option.getD_some, Option.getD_none]
    rw [hcombB]
    have hdecB : SignalGenerator.decision (1/50) = TradeSignal.HOLD := by
      norm_num [SignalGenerator.decision]
    rw [hdecB]
    simp only [ne_eq, not_true_eq_false, and_false, if_false]
    rw [abs_of_nonneg (by norm_num : (0:ℚ) ≤ 1/50),
      min_eq_left (by norm_num : (1:ℚ)/50 * (3/2) ≤ 1)]
    unfold roundTo pyRound
    norm_num
  · rw [generate_mtfAgreement_def]
    simp only [Option.map_none', Option.map_some', Option.getD_some, Option.getD_none]
    rw [roundTo_zero]
    norm_num
  · rw [hstrB]
    rw [min_eq_left (by norm_num : (3:ℚ)/2 * (1/50) ≤ 1)]
    norm_num
  · rw [generate_strength_def]
    simp only [Option.map_none', Option.map_some', Option.getD_some, Option.getD_none]
    rw [hcombC, abs_of_nonneg (by norm_num : (0:ℚ) ≤ 1/15)]
    unfold roundTo pyRound
    norm_num

/-- C5 (amended): for every indicator/increment input, the stored strength
is `round(|combined|, 4)` and the stored confidence is
`round(min(1.5·|combined|, 1) × (0.7 iff MTF agreement < 0.3 and the signal
is not HOLD), 4)`.  Confidence always lies in [0,1]; strength is
nonnegative and lies in [0,1] whenever |combined| ≤ 1, but the combined
score itself can leave [-1,1] (see the counterexample), so the
unconditional [0,1] bound claimed for strength holds only under that
proviso. -/
theorem signal_generate_spec (ind : IndicatorValues) (ofi : Option OFIInput)
    (regime : Option RegimeInput) (mtf : Option MTFInput)
    (kelly : Option KellyInput) :
    ((SignalGenerator.generate ind ofi regime mtf kelly).strength =
      roundTo |SignalGenerator.combinedScore ind ofi mtf kelly
        ((regime.map (·.positionMultiplier)).getD 1)| 4) ∧
    ((SignalGenerator.generate ind ofi regime mtf kelly).confidence =
      roundTo ((if ((mtf.map (·.agreementScore)).getD 0) < 3/10 ∧
          SignalGenerator.decision (SignalGenerator.combinedScore ind ofi mtf
            kelly ((regime.map (·.positionMultiplier)).getD 1)) ≠
              TradeSignal.HOLD then (7:ℚ)/10 else 1) *
        min (|SignalGenerator.combinedScore ind ofi mtf kelly
          ((regime.map (·.positionMultiplier)).getD 1)| * (3/2)) 1) 4) ∧
    (0 ≤ (SignalGenerator.generate ind ofi regime mtf kelly).strength) ∧
    (0 ≤ (SignalGenerator.generate ind ofi regime mtf kelly).confidence) ∧
    ((SignalGenerator.generate ind ofi regime mtf kelly).confidence ≤ 1) ∧
    (|SignalGenerator.combinedScore ind ofi mtf kelly
        ((regime.map (·.positionMultiplier)).getD 1)| ≤ 1 →
      (SignalGenerator.generate ind ofi regime mtf kelly).strength ≤ 1) := by
  set c := SignalGenerator.combinedScore ind ofi mtf kelly
    ((regime.map (·.positionMultiplier)).getD 1) with hc
  have hmin0 : 0 ≤ min (|c| * (3/2)) 1 := le_min (by positivity) (by norm_num)
  have hmin1 : min (|c| * (3/2)) 1 ≤ 1 := min_le_right _ _
  refine ⟨generate_strength_def ind ofi regime mtf kelly, ?_, ?_, ?_, ?_, ?_⟩
  · rw [generate_confidence_def]
    congr 1
    split_ifs with h
    · ring
    · ring
  · rw [generate_strength_def]
    exact roundTo_nonneg _ (abs_nonneg _)
  · rw [generate_confidence_def]
    apply roundTo_nonneg
    split_ifs with h
    · exact mul_nonneg hmin0 (by norm_num)
    · exact hmin0
  · rw [generate_confidence_def]
    apply roundTo_le_one
    split_ifs with h
    · nlinarith
    · exact hmin1
  · intro hle
    rw [generate_strength_def]
    exact roundTo_le_one _ hle

/-- Witness for C5's amended theorem at a concrete weak-signal input
(combined = 1/50): confidence 0.03 within bounds, strength 0.02 ≤ 1. -/
theorem signal_generate_spec_witness :
    (0 ≤ (SignalGenerator.generate ⟨45, 0, 0, 0, 0, 0⟩ none none none
      none).confidence) ∧
    ((SignalGenerator.generate ⟨45, 0, 0, 0, 0, 0⟩ none none none
      none).confidence ≤ 1) ∧
    ((SignalGenerator.generate ⟨45, 0, 0, 0, 0, 0⟩ none none none
      none).strength ≤ 1) := by
  have h := signal_generate_spec ⟨45, 0, 0, 0, 0, 0⟩ none none none none
  refine ⟨h.2.2.2.1, h.2.2.2.2.1, h.2.2.2.2.2 ?_⟩
  have hcombB : SignalGenerator.combinedScore ⟨45, 0, 0, 0, 0, 0⟩ none none
      none 1 = 1/50 := by
    norm_num [SignalGenerator.combinedScore, SignalGenerator.technicalScore]
  simp only [Option.map_none', Option.getD_none]
  rw [hcombB, abs_of_nonneg (by norm_num : (0:ℚ) ≤ 1/50)]
  norm_num

-- ── C10 ───────────────────────────────────────────────────────────────────

/-- C10: the trading loop's signal pipeline never supplies an MTF result,
so the generated output's `mtf_agreement` is 0, the MTF term contributes
nothing to the combined score (which reduces to the technical, OFI and
Kelly terms times the regime multiplier), and every non-HOLD signal has
its confidence discounted by the 0.7 low-agreement factor. -/
theorem loop_signal_no_mtf (ind : IndicatorValues) (ofi : OFIInput)
    (regime : RegimeInput) (kelly : KellyInput) :
    ((TradingLoop.generateSignal ind ofi regime kelly).mtfAgreement = 0) ∧
    (SignalGenerator.combinedScore ind (some ofi) none (some kelly)
        regime.positionMultiplier =
      ((40/100) * SignalGenerator.technicalScore ind +
        (20/100) * ofi.signalStrength * ofi.direction +
        (10/100) * min kelly.kellyFraction (1/4)) *
          regime.positionMultiplier) ∧
    ((TradingLoop.generateSignal ind ofi regime kelly).signal ≠
        TradeSignal.HOLD →
      (TradingLoop.generateSignal ind ofi regime kelly).confidence =
        roundTo ((min (|SignalGenerator.combinedScore ind (some ofi) none
          (some kelly) regime.positionMultiplier| * (3/2)) 1) * (7/10)) 4) := by
  refine ⟨?_, ?_, ?_⟩
  · rw [TradingLoop.generateSignal, generate_mtfAgreement_def]
    simp [roundTo_zero]
  · simp only [SignalGenerator.combinedScore, Option.map_none',
      Option.map_some', Option.getD_some, Option.getD_none]
    ring
  · intro hsig
    rw [TradingLoop.generateSignal] at hsig ⊢
    rw [generate_signal_def] at hsig
    rw [generate_confidence_def]
    simp only [Option.map_none', Option.map_some', Option.getD_some,
      Option.getD_none] at hsig ⊢
    rw [if_pos ⟨by norm_num, hsig⟩]

/-- Witness for C10: a strong BUY input through the loop pipeline yields
mtf_agreement 0 and the discounted confidence 0.63. -/
theorem loop_signal_no_mtf_witness :
    ((TradingLoop.generateSignal ⟨20, 10, 0, 0, 0, 0⟩ ⟨1, 1⟩ ⟨"NORMAL", 1⟩
      ⟨0⟩).mtfAgreement = 0) ∧
    ((TradingLoop.generateSignal ⟨20, 10, 0, 0, 0, 0⟩ ⟨1, 1⟩ ⟨"NORMAL", 1⟩
      ⟨0⟩).signal = TradeSignal.BUY) ∧
    ((TradingLoop.generateSignal ⟨20, 10, 0, 0, 0, 0⟩ ⟨1, 1⟩ ⟨"NORMAL", 1⟩
      ⟨0⟩).confidence = 63/100) := by
  have hcomb : SignalGenerator.combinedScore ⟨20, 10, 0, 0, 0, 0⟩
      (some ⟨1, 1⟩) none (some ⟨0⟩) 1 = 3/5 := by
    norm_num [SignalGenerator.combinedScore, SignalGenerator.technicalScore]
  have hsig : (TradingLoop.generateSignal ⟨20, 10, 0, 0, 0, 0⟩ ⟨1, 1⟩
      ⟨"NORMAL", 1⟩ ⟨0⟩).signal = TradeSignal.BUY := by
    rw [TradingLoop.generateSignal, generate_signal_def]
    simp only [Option.map_none', Option.map_some', Option.getD_some,
      Option.getD_none]
    rw [hcomb]
    norm_num [SignalGenerator.decision]
  have h := loop_signal_no_mtf ⟨20, 10, 0, 0, 0, 0⟩ ⟨1, 1⟩ ⟨"NORMAL", 1⟩ ⟨0⟩
  refine ⟨h.1, hsig, ?_⟩
  rw [h.2.2 (by rw [hsig]; simp)]
  rw [hcomb, abs_of_nonneg (by norm_num : (0:ℚ) ≤ 3/5),
    min_eq_left (by norm_num : (3:ℚ)/5 * (3/2) ≤ 1)]
  unfold roundTo pyRound
  norm_num

-- ── C6 ────────────────────────────────────────────────────────────────────

/-- C6 (amended): with at least `min_trades` recorded trades, `calculate`
returns `win_rate = wins/total`; `avg_loss` equal to the absolute mean
losing P&L, *defaulting* to 1 when there are no losing trades (it is not
floored at 1: losers with mean loss below 1 keep that smaller value);
`odds = avg_win/avg_loss` when `avg_loss > 0`, else 1; full Kelly
`(odds·win_rate − (1 − win_rate))/odds` (0 when odds ≤ 0), floored at 0;
fractional Kelly = full Kelly × the configured safety fraction, capped at
the configured max position percentage; and the risk amount is
`capital × fractional`. -/
theorem kelly_calculate_formulas (cfg : KellyConfig)
    (trades : List TradeResult) (capital entryPrice stopLossPrice : ℚ)
    (h : cfg.minTrades ≤ trades.length) :
    (KellyCriterionSizer.calculate cfg trades capital entryPrice
        stopLossPrice).winRate =
      ((trades.filter (·.isWinner)).length : ℚ) / trades.length ∧
    (KellyCriterionSizer.calculate cfg trades capital entryPrice
        stopLossPrice).avgWin =
      (if trades.filter (·.isWinner) ≠ [] then
        ((trades.filter (·.isWinner)).map (·.pnl)).sum /
          (trades.filter (·.isWinner)).length
      else 0) ∧
    (KellyCriterionSizer.calculate cfg trades capital entryPrice
        stopLossPrice).avgLoss =
      (if trades.filter (fun t => ¬ t.isWinner = true) ≠ [] then
        |((trades.filter (fun t => ¬ t.isWinner = true)).map (·.pnl)).sum /
          (trades.filter (fun t => ¬ t.isWinner = true)).length|
      else 1) ∧
    (KellyCriterionSizer.calculate cfg trades capital entryPrice
        stopLossPrice).oddsRatio =
      (if 0 < (KellyCriterionSizer.calculate cfg trades capital entryPrice
          stopLossPrice).avgLoss then
        (KellyCriterionSizer.calculate cfg trades capital entryPrice
          stopLossPrice).avgWin /
        (KellyCriterionSizer.calculate cfg trades capital entryPrice
          stopLossPrice).avgLoss
      else 1) ∧
    (KellyCriterionSizer.calculate cfg trades capital entryPrice
        stopLossPrice).fullKelly =
      max (if 0 < (KellyCriterionSizer.calculate cfg trades capital
          entryPrice stopLossPrice).oddsRatio then
        ((KellyCriterionSizer.calculate cfg trades capital entryPrice
            stopLossPrice).oddsRatio *
          (KellyCriterionSizer.calculate cfg trades capital entryPrice
            stopLossPrice).winRate -
          (1 - (KellyCriterionSizer.calculate cfg trades capital entryPrice
            stopLossPrice).winRate)) /
        (KellyCriterionSizer.calculate cfg trades capital entryPrice
          stopLossPrice).oddsRatio
      else 0) 0 ∧
    (KellyCriterionSizer.calculate cfg trades capital entryPrice
        stopLossPrice).fractionalKelly =
      min ((KellyCriterionSizer.calculate cfg trades capital entryPrice
        stopLossPrice).fullKelly * cfg.kellyFraction) cfg.maxPositionPct ∧
    (KellyCriterionSizer.calculate cfg trades capital entryPrice
        stopLossPrice).positionSizeRupees =
      capital * (KellyCriterionSizer.calculate cfg trades capital entryPrice
        stopLossPrice).fractionalKelly ∧
    (KellyCriterionSizer.calculate cfg trades capital entryPrice
        stopLossPrice).isActive = true := by
  have hnot : ¬ (trades.length < cfg.minTrades) := not_lt.mpr h
  simp only [KellyCriterionSizer.calculate, if_neg hnot]
  simp

/-- Counterexample for C6: with one winner (P&L +2) and one loser
(P&L −0.5) over a 2-trade minimum, `avg_loss` is 0.5 — it is *not*
floored at 1 (the 1 is only a default for the no-losers case) — so the
odds ratio is 2/0.5 = 4, not the claimed 2/max(0.5, 1) = 2. -/
theorem kelly_avg_loss_not_floored :
    (KellyCriterionSizer.calculate ⟨1/4, 2, 1/10⟩
      [⟨"T", TradeSide.LONG, 1, 10, 12⟩, ⟨"T", TradeSide.LONG, 1, 10, 19/2⟩]
      100000 100 98).avgWin = 2 ∧
    (KellyCriterionSizer.calculate ⟨1/4, 2, 1/10⟩
      [⟨"T", TradeSide.LONG, 1, 10, 12⟩, ⟨"T", TradeSide.LONG, 1, 10, 19/2⟩]
      100000 100 98).avgLoss = 1/2 ∧
    (KellyCriterionSizer.calculate ⟨1/4, 2, 1/10⟩
      [⟨"T", TradeSide.LONG, 1, 10, 12⟩, ⟨"T", TradeSide.LONG, 1, 10, 19/2⟩]
      100000 100 98).oddsRatio = 4 ∧
    (KellyCriterionSizer.calculate ⟨1/4, 2, 1/10⟩
      [⟨"T", TradeSide.LONG, 1, 10, 12⟩, ⟨"T", TradeSide.LONG, 1, 10, 19/2⟩]
      100000 100 98).oddsRatio ≠
      (KellyCriterionSizer.calculate ⟨1/4, 2, 1/10⟩
        [⟨"T", TradeSide.LONG, 1, 10, 12⟩, ⟨"T", TradeSide.LONG, 1, 10, 19/2⟩]
        100000 100 98).avgWin /
      max (KellyCriterionSizer.calculate ⟨1/4, 2, 1/10⟩
        [⟨"T", TradeSide.LONG, 1, 10, 12⟩, ⟨"T", TradeSide.LONG, 1, 10, 19/2⟩]
        100000 100 98).avgLoss 1 := by
  have hw : TradeResult.isWinner ⟨"T", TradeSide.LONG, 1, 10, 12⟩ = true := by
    simp [TradeResult.isWinner, TradeResult.pnl]
    norm_num
  have hl : TradeResult.isWinner ⟨"T", TradeSide.LONG, 1, 10, 19/2⟩ = false := by
    simp [TradeResult.isWinner, TradeResult.pnl]
    norm_num
  have hwin : (KellyCriterionSizer.calculate ⟨1/4, 2, 1/10⟩
      [⟨"T", TradeSide.LONG, 1, 10, 12⟩, ⟨"T", TradeSide.LONG, 1, 10, 19/2⟩]
      100000 100 98).avgWin = 2 := by
    simp [KellyCriterionSizer.calculate, List.filter, hw, hl,
      TradeResult.pnl]
    norm_num
  have hloss : (KellyCriterionSizer.calculate ⟨1/4, 2, 1/10⟩
      [⟨"T", TradeSide.LONG, 1, 10, 12⟩, ⟨"T", TradeSide.LONG, 1, 10, 19/2⟩]
      100000 100 98).avgLoss = 1/2 := by
    simp [KellyCriterionSizer.calculate, List.filter, hw, hl,
      TradeResult.pnl]
    norm_num
  have hodds : (KellyCriterionSizer.calculate ⟨1/4, 2, 1/10⟩
      [⟨"T", TradeSide.LONG, 1, 10, 12⟩, ⟨"T", TradeSide.LONG, 1, 10, 19/2⟩]
      100000 100 98).oddsRatio = 4 := by
    simp [KellyCriterionSizer.calculate, List.filter, hw, hl,
      TradeResult.pnl]
    norm_num
    rw [show |(1:ℚ)/2| = 1/2 from abs_of_nonneg (by norm_num)]
    norm_num
  refine ⟨hwin, hloss, hodds, ?_⟩
  rw [hwin, hloss, hodds]
  rw [max_eq_right (by norm_num : (1:ℚ)/2 ≤ 1)]
  norm_num

/-- Witness for C6's amended theorem at the same two-trade history:
win rate 1/2, odds 4, full Kelly (4·0.5 − 0.5)/4 = 0.375, fractional
0.375·0.25 = 0.09375 (below the 10% cap), risk = 9375. -/
theorem kelly_calculate_formulas_witness :
    (2 : ℕ) ≤ ([⟨"T", TradeSide.LONG, 1, 10, 12⟩,
      ⟨"T", TradeSide.LONG, 1, 10, 19/2⟩] : List TradeResult).length ∧
    (KellyCriterionSizer.calculate ⟨1/4, 2, 1/10⟩
      [⟨"T", TradeSide.LONG, 1, 10, 12⟩, ⟨"T", TradeSide.LONG, 1, 10, 19/2⟩]
      100000 100 98).winRate =
      (([⟨"T", TradeSide.LONG, 1, 10, 12⟩,
        ⟨"T", TradeSide.LONG, 1, 10, 19/2⟩] : List TradeResult).filter
          (·.isWinner)).length /
        (([⟨"T", TradeSide.LONG, 1, 10, 12⟩,
          ⟨"T", TradeSide.LONG, 1, 10, 19/2⟩] : List TradeResult).length : ℚ) ∧
    (KellyCriterionSizer.calculate ⟨1/4, 2, 1/10⟩
      [⟨"T", TradeSide.LONG, 1, 10, 12⟩, ⟨"T", TradeSide.LONG, 1, 10, 19/2⟩]
      100000 100 98).fractionalKelly =
      min ((KellyCriterionSizer.calculate ⟨1/4, 2, 1/10⟩
        [⟨"T", TradeSide.LONG, 1, 10, 12⟩, ⟨"T", TradeSide.LONG, 1, 10, 19/2⟩]
        100000 100 98).fullKelly * (1/4)) (1/10) ∧
    (KellyCriterionSizer.calculate ⟨1/4, 2, 1/10⟩
      [⟨"T", TradeSide.LONG, 1, 10, 12⟩, ⟨"T", TradeSide.LONG, 1, 10, 19/2⟩]
      100000 100 98).isActive = true := by
  have h := kelly_calculate_formulas ⟨1/4, 2, 1/10⟩
    [⟨"T", TradeSide.LONG, 1, 10, 12⟩, ⟨"T", TradeSide.LONG, 1, 10, 19/2⟩]
    100000 100 98 (by simp)
  exact ⟨by simp, h.1, h.2.2.2.2.2.1, h.2.2.2.2.2.2.2⟩

-- ── C1 ────────────────────────────────────────────────────────────────────

theorem twap_numSlices_pos (numSlices : Option ℕ) (tq : ℕ) (h : 1 ≤ tq) :
    1 ≤ TWAPStrategy.numSlicesFor numSlices tq := by
  simp only [TWAPStrategy.numSlicesFor]
  omega

theorem twap_numSlices_le (numSlices : Option ℕ) (tq : ℕ) :
    TWAPStrategy.numSlicesFor numSlices tq ≤ tq := by
  simp only [TWAPStrategy.numSlicesFor]
  omega

/-- Sum over `range n` of a constant plus a remainder indicator. -/
theorem sum_base_ite (n base rem : ℕ) :
    ((List.range n).map fun i => base + if i < rem then 1 else 0).sum =
      n * base + min rem n := by
  induction n with
  | zero => simp
  | succ m ih =>
      rw [List.range_succ, List.map_append, List.sum_append, ih]
      by_cases hm : m < rem
      · have h1 : min rem m = m := by omega
        have h2 : min rem (m + 1) = m + 1 := by omega
        simp only [List.map_cons, List.map_nil, List.sum_cons, List.sum_nil,
          h1, h2, if_pos hm]
        ring
      · have h1 : min rem m = rem := by omega
        have h2 : min rem (m + 1) = rem := by omega
        simp only [List.map_cons, List.map_nil, List.sum_cons, List.sum_nil,
          h1, h2, if_neg hm]
        ring

/-- The TWAP child quantities total `n*base + rem` (cast to ℤ). -/
theorem twap_qty_sum (n base rem : ℕ) (hrem : rem ≤ n) :
    ((List.range n).map fun i =>
      ((base + if i < rem then 1 else 0 : ℕ) : ℤ)).sum =
      ((n * base + rem : ℕ) : ℤ) := by
  rw [list_sum_map_natCast]
  congr 1
  rw [sum_base_ite]
  omega

theorem vwap_numSlices_pos (numSlices : Option ℕ) (tq : ℕ) (h : 1 ≤ tq) :
    1 ≤ VWAPStrategy.numSlicesFor numSlices tq := by
  simp only [VWAPStrategy.numSlicesFor]
  omega

/-- Every non-last VWAP slice quantity is at least 1. -/
theorem vwap_sliceQty_pos (tq : ℕ) (w : List ℚ) (i : ℕ) :
    0 < VWAPStrategy.sliceQty tq w i := by
  simp only [VWAPStrategy.sliceQty]
  omega

/-- C1 (amended): for any slice counts, any duration, any total quantity
≥ 1 and (for VWAP) any supplied volume profile: every TWAP child quantity
is positive and the TWAP children sum exactly to the parent's total;
every VWAP child quantity is positive (non-positive children are filtered
out), and the VWAP children sum to `max(total, allocated)` where
`allocated` is the quantity given to the first n−1 weighted slices — equal
to the total exactly when `allocated ≤ total`.  (With the default U-shaped
weights this holds in practice, but a supplied profile can push
`allocated` past the total, in which case the children sum *exceeds* the
parent's total; see the counterexample.) -/
theorem twap_vwap_schedule_spec (twapSlices vwapSlices : Option ℕ)
    (profile : Option (List ℚ)) (symbol : String) (side : TradeSide)
    (tq : ℕ) (duration price now : ℚ) (h : 1 ≤ tq) :
    (((TWAPStrategy.generateSchedule twapSlices symbol side tq duration
        price now).children.map (·.quantity)).sum =
      (TWAPStrategy.generateSchedule twapSlices symbol side tq duration
        price now).totalQuantity) ∧
    (∀ c ∈ (TWAPStrategy.generateSchedule twapSlices symbol side tq
        duration price now).children, 0 < c.quantity) ∧
    (∀ c ∈ (VWAPStrategy.generateSchedule profile vwapSlices symbol side tq
        duration price now).children, 0 < c.quantity) ∧
    (((VWAPStrategy.generateSchedule profile vwapSlices symbol side tq
        duration price now).children.map (·.quantity)).sum =
      max (VWAPStrategy.generateSchedule profile vwapSlices symbol side tq
          duration price now).totalQuantity
        (VWAPStrategy.allocated tq
          (VWAPStrategy.getWeights profile
            (VWAPStrategy.numSlicesFor vwapSlices tq))
          (VWAPStrategy.numSlicesFor vwapSlices tq - 1))) ∧
    (VWAPStrategy.allocated tq
        (VWAPStrategy.getWeights profile
          (VWAPStrategy.numSlicesFor vwapSlices tq))
        (VWAPStrategy.numSlicesFor vwapSlices tq - 1) ≤ (tq : ℤ) →
      ((VWAPStrategy.generateSchedule profile vwapSlices symbol side tq
          duration price now).children.map (·.quantity)).sum =
        (VWAPStrategy.generateSchedule profile vwapSlices symbol side tq
          duration price now).totalQuantity) := by
  -- TWAP facts
  have htn1 : 1 ≤ TWAPStrategy.numSlicesFor twapSlices tq :=
    twap_numSlices_pos twapSlices tq h
  have htnle : TWAPStrategy.numSlicesFor twapSlices tq ≤ tq :=
    twap_numSlices_le twapSlices tq
  have htbase : 1 ≤ tq / TWAPStrategy.numSlicesFor twapSlices tq :=
    (Nat.one_le_div_iff (by omega)).mpr htnle
  have htsum : (((TWAPStrategy.generateSchedule twapSlices symbol side tq
      duration price now).children.map (·.quantity)).sum =
      (TWAPStrategy.generateSchedule twapSlices symbol side tq duration
        price now).totalQuantity) := by
    simp only [TWAPStrategy.generateSchedule, List.map_map]
    have hcomp : ((fun c : ChildOrder => c.quantity) ∘ fun i =>
        ({ sequence := i + 1,
           quantity := ((tq / TWAPStrategy.numSlicesFor twapSlices tq +
             if i < tq % TWAPStrategy.numSlicesFor twapSlices tq then 1
             else 0 : ℕ) : ℤ),
           targetPrice := price,
           scheduledTime := now + duration /
             (TWAPStrategy.numSlicesFor twapSlices tq) * i } : ChildOrder)) =
        fun i => ((tq / TWAPStrategy.numSlicesFor twapSlices tq +
          if i < tq % TWAPStrategy.numSlicesFor twapSlices tq then 1
          else 0 : ℕ) : ℤ) := rfl
    rw [hcomp, twap_qty_sum _ _ _
      (le_of_lt (Nat.mod_lt _ (by omega)))]
    rw [Nat.div_add_mod]
  have htpos : ∀ c ∈ (TWAPStrategy.generateSchedule twapSlices symbol side
      tq duration price now).children, 0 < c.quantity := by
    intro c hc
    simp only [TWAPStrategy.generateSchedule, List.mem_map,
      List.mem_range] at hc
    obtain ⟨i, _, rfl⟩ := hc
    simp only []
    have : 1 ≤ tq / TWAPStrategy.numSlicesFor twapSlices tq +
        if i < tq % TWAPStrategy.numSlicesFor twapSlices tq then 1 else 0 := by
      omega
    exact_mod_cast Nat.lt_of_lt_of_le Nat.zero_lt_one this
  -- VWAP facts
  have hvn1 : 1 ≤ VWAPStrategy.numSlicesFor vwapSlices tq :=
    vwap_numSlices_pos vwapSlices tq h
  have hvne : VWAPStrategy.numSlicesFor vwapSlices tq ≠ 0 := by omega
  -- the raw children decompose into the weighted prefix and the last slice
  have hfilter : (VWAPStrategy.generateSchedule profile vwapSlices symbol
      side tq duration price now).children =
      ((List.range (VWAPStrategy.numSlicesFor vwapSlices tq - 1)).map fun i =>
        ({ sequence := i + 1,
           quantity := VWAPStrategy.sliceQty tq
             (VWAPStrategy.getWeights profile
               (VWAPStrategy.numSlicesFor vwapSlices tq)) i,
           targetPrice := price,
           scheduledTime := now + duration /
             (VWAPStrategy.numSlicesFor vwapSlices tq) * i } : ChildOrder)) ++
      (if 0 < (tq : ℤ) - VWAPStrategy.allocated tq
          (VWAPStrategy.getWeights profile
            (VWAPStrategy.numSlicesFor vwapSlices tq))
          (VWAPStrategy.numSlicesFor vwapSlices tq - 1) then
        [({ sequence := VWAPStrategy.numSlicesFor vwapSlices tq,
            quantity := (tq : ℤ) - VWAPStrategy.allocated tq
              (VWAPStrategy.getWeights profile
                (VWAPStrategy.numSlicesFor vwapSlices tq))
              (VWAPStrategy.numSlicesFor vwapSlices tq - 1),
            targetPrice := price,
            scheduledTime := now + duration /
              (VWAPStrategy.numSlicesFor vwapSlices tq) *
                (VWAPStrategy.numSlicesFor vwapSlices tq - 1 : ℕ) } :
          ChildOrder)]
      else []) := by
    simp only [VWAPStrategy.generateSchedule, if_neg hvne]
    rw [List.filter_append]
    congr 1
    · apply List.filter_eq_self.mpr
      intro c hc
      simp only [List.mem_map, List.mem_range] at hc
      obtain ⟨i, _, rfl⟩ := hc
      simpa using vwap_sliceQty_pos tq _ i
    · by_cases hlast : 0 < (tq : ℤ) - VWAPStrategy.allocated tq
        (VWAPStrategy.getWeights profile
          (VWAPStrategy.numSlicesFor vwapSlices tq))
        (VWAPStrategy.numSlicesFor vwapSlices tq - 1)
      · simp [hlast]
        left
        rw [Nat.cast_sub hvn1]
        norm_num
      · simp [hlast]
  have hvpos : ∀ c ∈ (VWAPStrategy.generateSchedule profile vwapSlices
      symbol side tq duration price now).children, 0 < c.quantity := by
    intro c hc
    simp only [VWAPStrategy.generateSchedule, if_neg hvne,
      List.mem_filter] at hc
    exact of_decide_eq_true hc.2
  have hvsum : (((VWAPStrategy.generateSchedule profile vwapSlices symbol
      side tq duration price now).children.map (·.quantity)).sum =
      max (VWAPStrategy.generateSchedule profile vwapSlices symbol side tq
          duration price now).totalQuantity
        (VWAPStrategy.allocated tq
          (VWAPStrategy.getWeights profile
            (VWAPStrategy.numSlicesFor vwapSlices tq))
          (VWAPStrategy.numSlicesFor vwapSlices tq - 1))) := by
    rw [hfilter]
    have htot : (VWAPStrategy.generateSchedule profile vwapSlices symbol
        side tq duration price now).totalQuantity = (tq : ℤ) := rfl
    rw [htot, List.map_append, List.sum_append, List.map_map]
    have hcomp : ((fun c : ChildOrder => c.quantity) ∘ fun i =>
        ({ sequence := i + 1,
           quantity := VWAPStrategy.sliceQty tq
             (VWAPStrategy.getWeights profile
               (VWAPStrategy.numSlicesFor vwapSlices tq)) i,
           targetPrice := price,
           scheduledTime := now + duration /
             (VWAPStrategy.numSlicesFor vwapSlices tq) * i } : ChildOrder)) =
        VWAPStrategy.sliceQty tq (VWAPStrategy.getWeights profile
          (VWAPStrategy.numSlicesFor vwapSlices tq)) := rfl
    rw [hcomp]
    have hA : ((List.range (VWAPStrategy.numSlicesFor vwapSlices tq - 1)).map
        (VWAPStrategy.sliceQty tq (VWAPStrategy.getWeights profile
          (VWAPStrategy.numSlicesFor vwapSlices tq)))).sum =
        VWAPStrategy.allocated tq (VWAPStrategy.getWeights profile
          (VWAPStrategy.numSlicesFor vwapSlices tq))
          (VWAPStrategy.numSlicesFor vwapSlices tq - 1) := rfl
    rw [hA]
    by_cases hlast : 0 < (tq : ℤ) - VWAPStrategy.allocated tq
        (VWAPStrategy.getWeights profile
          (VWAPStrategy.numSlicesFor vwapSlices tq))
        (VWAPStrategy.numSlicesFor vwapSlices tq - 1)
    · rw [if_pos hlast]
      simp only [List.map_cons, List.map_nil, List.sum_cons, List.sum_nil]
      omega
    · rw [if_neg hlast]
      simp only [List.map_nil, List.sum_nil]
      omega
  refine ⟨htsum, htpos, hvpos, hvsum, fun hle => ?_⟩
  rw [hvsum]
  have htot : (VWAPStrategy.generateSchedule profile vwapSlices symbol
      side tq duration price now).totalQuantity = (tq : ℤ) := rfl
  rw [htot]
  omega

/-- Counterexample for C1: a VWAP schedule for `total_quantity = 3` with
the supplied volume profile `[1, 1, 0]` gives both non-last slices
`max(1, round(3·0.5)) = 2`, over-allocating 4; the last slice would be
−1 and is filtered out, so the children sum to 4 ≠ 3 (the parent's
total). -/
theorem vwap_profile_sum_counterexample :
    (VWAPStrategy.generateSchedule (some [1, 1, 0]) none "SYM"
      TradeSide.LONG 3 600 100 0).totalQuantity = 3 ∧
    ((VWAPStrategy.generateSchedule (some [1, 1, 0]) none "SYM"
      TradeSide.LONG 3 600 100 0).children.map (·.quantity)).sum = 4 ∧
    (4 : ℤ) ≠ 3 := by
  have hn : VWAPStrategy.numSlicesFor none 3 = 3 := by
    norm_num [VWAPStrategy.numSlicesFor, VWAPStrategy.autoSlices]
  have hw : VWAPStrategy.getWeights (some [1, 1, 0]) 3 = [1/2, 1/2, 0] := by
    simp only [VWAPStrategy.getWeights]
    norm_num
    intro hcontra
    simp at hcontra
  have hround : pyRound ((3 : ℚ) / 2) = 2 := by
    unfold pyRound
    norm_num
  have hs0 : VWAPStrategy.sliceQty 3 [1/2, 1/2, 0] 0 = 2 := by
    simp only [VWAPStrategy.sliceQty, List.getD]
    norm_num
    rw [hround]
    decide
  have hs1 : VWAPStrategy.sliceQty 3 [1/2, 1/2, 0] 1 = 2 := by
    simp only [VWAPStrategy.sliceQty, List.getD]
    norm_num
    rw [hround]
    decide
  have hA : VWAPStrategy.allocated 3 [1/2, 1/2, 0] 2 = 4 := by
    show ((List.range 2).map (VWAPStrategy.sliceQty 3 [1/2, 1/2, 0])).sum = 4
    rw [show List.range 2 = [0, 1] from rfl]
    simp only [List.map_cons, List.map_nil, List.sum_cons, List.sum_nil,
      hs0, hs1]
    decide
  refine ⟨rfl, ?_, by norm_num⟩
  simp only [VWAPStrategy.generateSchedule, hn, hw]
  rw [if_neg (by norm_num : ¬ (3 : ℕ) = 0)]
  rw [show (3 : ℕ) - 1 = 2 from rfl, show List.range 2 = [0, 1] from rfl]
  simp only [List.map_cons, List.map_nil, hs0, hs1, hA]
  norm_num [List.filter]

/-- Witness for C1's amended theorem: total quantity 5, TWAP (auto 2
slices) sums to 5 with positive children; VWAP with a uniform profile
`[1,1,1]` allocates 2+2 in the first two slices (≤ 5), so the children
sum equals the parent total. -/
theorem twap_vwap_schedule_spec_witness :
    (((TWAPStrategy.generateSchedule none "S" TradeSide.LONG 5 600 100
        0).children.map (·.quantity)).sum =
      (TWAPStrategy.generateSchedule none "S" TradeSide.LONG 5 600 100
        0).totalQuantity) ∧
    (((VWAPStrategy.generateSchedule (some [1, 1, 1]) none "S"
        TradeSide.LONG 5 600 100 0).children.map (·.quantity)).sum =
      (VWAPStrategy.generateSchedule (some [1, 1, 1]) none "S"
        TradeSide.LONG 5 600 100 0).totalQuantity) := by
  have h := twap_vwap_schedule_spec none none (some [1, 1, 1]) "S"
    TradeSide.LONG 5 600 100 0 (by norm_num)
  refine ⟨h.1, h.2.2.2.2 ?_⟩
  have hn : VWAPStrategy.numSlicesFor none 5 = 3 := by
    norm_num [VWAPStrategy.numSlicesFor, VWAPStrategy.autoSlices]
  have hw : VWAPStrategy.getWeights (some [1, 1, 1]) 3 = [1/3, 1/3, 1/3] := by
    simp only [VWAPStrategy.getWeights]
    norm_num
    intro hcontra
    simp at hcontra
  have hround : pyRound ((5 : ℚ) / 3) = 2 := by
    unfold pyRound
    norm_num [Int.fract]
  have hs0 : VWAPStrategy.sliceQty 5 [1/3, 1/3, 1/3] 0 = 2 := by
    simp only [VWAPStrategy.sliceQty, List.getD]
    norm_num
    rw [hround]
    decide
  have hs1 : VWAPStrategy.sliceQty 5 [1/3, 1/3, 1/3] 1 = 2 := by
    simp only [VWAPStrategy.sliceQty, List.getD]
    norm_num
    rw [hround]
    decide
  rw [hn, hw]
  show VWAPStrategy.allocated 5 [1/3, 1/3, 1/3] 2 ≤ (5 : ℤ)
  show ((List.range 2).map (VWAPStrategy.sliceQty 5 [1/3, 1/3, 1/3])).sum ≤ 5
  rw [show List.range 2 = [0, 1] from rfl]
  simp only [List.map_cons, List.map_nil, List.sum_cons, List.sum_nil,
    hs0, hs1]
  decide
